import Mathlib

/-!
Verification development for the `antidetect-launcher` repository.

The Python source is shallowly embedded: dataclasses become structures,
Python `float` values are modelled by exact rationals (`ℚ`), Python's seeded
Mersenne-Twister stream `random.Random(seed)` is modelled by a deterministic
stream of draws derived from the seed, nondeterministic inputs (fresh
`uuid.uuid4()` values, network probe outcomes, user-script outcomes) become
explicit function arguments, and stateful classes become explicit
state-passing functions.
-/

namespace Antidetect

/-! ## Domain model: proxies
Embeds `src/antidetect_launcher/domain/models/proxy.py` (the twin module
`antidetect_playwright/domain/models/proxy.py` is identical in the fields
used here). -/

/-- `ProxyProtocol` enum. -/
inductive ProxyProtocol
  | http
  | https
  | socks4
  | socks5
  deriving DecidableEq, Repr

/-- `ProxyProtocol.value`: the string value of each enum member. -/
def ProxyProtocol.value : ProxyProtocol → String
  | .http => "http"
  | .https => "https"
  | .socks4 => "socks4"
  | .socks5 => "socks5"

/-- `ProxyProtocol(value)`: enum lookup by value, `none` when no member
matches (Python raises `ValueError`). -/
def ProxyProtocol.ofValue : String → Option ProxyProtocol
  | "http" => some .http
  | "https" => some .https
  | "socks4" => some .socks4
  | "socks5" => some .socks5
  | _ => none

/-- `ProxyStatus` enum. -/
inductive ProxyStatus
  | unknown
  | valid
  | invalid
  | slow
  | banned
  deriving DecidableEq, Repr

/-- `ProxyConfig` dataclass (host, port, protocol, optional credentials). -/
structure ProxyConfig where
  host : String
  port : Nat
  protocol : ProxyProtocol
  username : Option String := none
  password : Option String := none
  deriving DecidableEq, Repr

/-- `ProxyConfig.requires_auth`. -/
def ProxyConfig.requires_auth (p : ProxyConfig) : Bool :=
  p.username.isSome && p.password.isSome

/-- `ProxyConfig.url`: the full proxy URL, including credentials when both
are present. This string is the pool's and the session manager's
uniqueness key. -/
def ProxyConfig.url (p : ProxyConfig) : String :=
  if p.requires_auth then
    let user := p.username.getD ""
    let pass := p.password.getD ""
    s!"{p.protocol.value}://{user}:{pass}@{p.host}:{p.port}"
  else
    s!"{p.protocol.value}://{p.host}:{p.port}"

/-! ## Proxy pool
Embeds `ProxyManager` from `src/antidetect_playwright/infrastructure/proxy.py`.
The `asyncio` lock makes each method body atomic; we embed each method as a
pure state transformer.  The pool's `random.choice` draw is an explicit
`Nat` argument (`r`), used only by the `"random"` strategy. -/

/-- `ProxyEntry` dataclass: per-proxy tracking record. -/
structure ProxyEntry where
  config : ProxyConfig
  status : ProxyStatus := .unknown
  in_use : Bool := false
  use_count : Nat := 0
  fail_count : Nat := 0
  deriving Repr

/-- State of a `ProxyManager`: proxies dict (association list keyed by URL),
available deque (list of keys), rotation strategy and round-robin index. -/
structure PoolState where
  strategy : String
  proxies : List (String × ProxyEntry)
  available : List String
  rr_index : Nat := 0
  deriving Repr

/-- Association-list update, mirroring `self._proxies[key] = entry`. -/
def updateEntry (l : List (String × ProxyEntry)) (k : String)
    (f : ProxyEntry → ProxyEntry) : List (String × ProxyEntry) :=
  l.map fun kv => if kv.1 = k then (kv.1, f kv.2) else kv

/-- Association-list lookup, mirroring `self._proxies[key]`. -/
def lookupEntry (l : List (String × ProxyEntry)) (k : String) :
    Option ProxyEntry :=
  (l.find? fun kv => kv.1 = k).map Prod.snd

/-- `ProxyManager.get_proxy`: select a key by the rotation strategy, mark the
entry `in_use` and bump `use_count`, and return its config.  Note the key is
*not* removed from `_available`. -/
def getProxy (s : PoolState) (r : Nat) : Option ProxyConfig × PoolState :=
  if s.available.isEmpty then (none, s)
  else
    let pick : Option (String × PoolState) :=
      if s.strategy = "random" then
        (s.available.get? (r % s.available.length)).map (·, s)
      else if s.strategy = "round_robin" then
        let idx := if s.rr_index ≥ s.available.length then 0 else s.rr_index
        (s.available.get? idx).map (·, { s with rr_index := idx + 1 })
      else
        s.available.head?.map (·, s)
    match pick with
    | none => (none, s)
    | some (key, s') =>
        match lookupEntry s'.proxies key with
        | none => (none, s')
        | some e =>
            let mark : ProxyEntry → ProxyEntry :=
              fun e => { e with in_use := true, use_count := e.use_count + 1 }
            (some e.config, { s' with proxies := updateEntry s'.proxies key mark })

/-- `ProxyManager.release_proxy`: clear the `in_use` flag of the entry keyed
by the proxy's URL; a no-op for unknown keys. -/
def releaseProxy (s : PoolState) (p : ProxyConfig) : PoolState :=
  if (lookupEntry s.proxies p.url).isSome then
    { s with proxies := updateEntry s.proxies p.url (fun e => { e with in_use := false }) }
  else s

/-- Helper: build the initial pool state from a list of configs in file
order, as `load_proxies` does (dict insert + available append, skipping
duplicate URLs). -/
def loadPool (strategy : String) (ps : List ProxyConfig) : PoolState :=
  ps.foldl
    (fun s p =>
      if (lookupEntry s.proxies p.url).isSome then s
      else { s with proxies := s.proxies ++ [(p.url, { config := p })],
                    available := s.available ++ [p.url] })
    { strategy := strategy, proxies := [], available := [] }

/-! ## Proxy validation (C7)
Embeds `ProxyManager.validate_proxy`.  The network probe (an HTTP GET via
`aiohttp` through the proxy) is nondeterministic; its outcome is an explicit
argument. -/

/-- Outcome of the probe HTTP GET issued by `validate_proxy`: a response
with a status code, a timeout (`asyncio.TimeoutError`) or any other
exception. -/
inductive ProbeOutcome
  | resp (status : Nat)
  | timeout
  | error
  deriving DecidableEq, Repr

/-- `ProxyManager.validate_proxy`: `200 → VALID`, any other response status
`→ INVALID`, timeout `→ SLOW`, any other exception `→ INVALID`. -/
def validateProxy : ProbeOutcome → ProxyStatus
  | .resp status => if status = 200 then .valid else .invalid
  | .timeout => .slow
  | .error => .invalid

/-! ## Domain model: fingerprints
Embeds the fingerprint dataclasses of `domain/models/fingerprint.py`
(the field set used by `infrastructure/fingerprint.py` and
`infrastructure/profile_storage.py`).  Python floats are modelled by `ℚ`. -/

/-- `ScreenResolution` dataclass. -/
structure ScreenResolution where
  width : Nat
  height : Nat
  deriving DecidableEq, Repr

/-- `WebGLConfig` dataclass. -/
structure WebGLConfig where
  vendor : String
  renderer : String
  unmasked_vendor : String
  unmasked_renderer : String
  deriving DecidableEq, Repr

/-- `AudioConfig` dataclass. -/
structure AudioConfig where
  sample_rate : Nat
  noise_factor : ℚ
  deriving DecidableEq, Repr

/-- `CanvasConfig` dataclass. -/
structure CanvasConfig where
  noise_r : ℚ
  noise_g : ℚ
  noise_b : ℚ
  noise_a : ℚ
  deriving DecidableEq, Repr

/-- `NavigatorConfig` dataclass. -/
structure NavigatorConfig where
  user_agent : String
  platform : String
  language : String
  languages : List String
  hardware_concurrency : Nat
  device_memory : Nat
  max_touch_points : Nat
  vendor : String
  deriving DecidableEq, Repr

/-- `Fingerprint` dataclass. -/
structure Fingerprint where
  id : String
  screen : ScreenResolution
  navigator : NavigatorConfig
  timezone : String
  webgl : WebGLConfig
  canvas : CanvasConfig
  audio : AudioConfig
  fonts : List String
  plugins : List String
  deriving DecidableEq, Repr

/-! ## Fingerprint generator (launcher)
Embeds `FingerprintGenerator` from
`src/antidetect_launcher/infrastructure/fingerprint.py`.

Each `generate_for_platform` call seeds `random.Random` from the sha256 of a
fresh `uuid4` id; the resulting draw sequence is deterministic in that id but
the id itself is nondeterministic, so the whole draw stream is modelled as an
explicit input (`RStream`).  Each successive draw consumes one position of
the stream.  `rng.uniform(a, b)` is modelled as `a + (b - a) * u` with the
stream's unit value clamped to `[0, 1]`. -/

/-- Model of one `random.Random` draw sequence: integer-valued and
unit-interval-valued draws by position. -/
structure RStream where
  nats : Nat → Nat
  rats : Nat → ℚ

/-- `rng.choice(l)`: an element of `l` selected by the draw at position `k`;
`none` when `l` is empty (Python raises `IndexError`). -/
def RStream.choice (rs : RStream) (k : Nat) (l : List α) : Option α :=
  l.get? (rs.nats k % l.length)

/-- The unit-interval value of the draw at position `k`. -/
def RStream.unit (rs : RStream) (k : Nat) : ℚ :=
  let q := rs.rats k
  if q < 0 then 0 else if 1 < q then 1 else q

/-- `rng.uniform(a, b)`. -/
def RStream.uniform (rs : RStream) (k : Nat) (a b : ℚ) : ℚ :=
  a + (b - a) * rs.unit k

/-- `rng.randint(a, b)` (inclusive bounds). -/
def RStream.randint (rs : RStream) (k : Nat) (a b : Nat) : Nat :=
  a + rs.nats k % (b - a + 1)

/-- `rng.sample(l, n)`: `n` distinct positions of `l`, drawn without
replacement starting at stream position `k`. -/
def RStream.sample (rs : RStream) (k : Nat) (l : List α) : Nat → List α
  | 0 => []
  | n + 1 =>
      match l.length with
      | 0 => []
      | _ + 1 =>
          let i := rs.nats k % l.length
          match l.get? i with
          | none => []
          | some x => x :: rs.sample (k + 1) (l.eraseIdx i) n

/-- `PlatformProfile` dataclass; the user-agent template is embedded as the
function substituting `{chrome_version}`. -/
structure PlatformProfile where
  platform : String
  vendor : String
  user_agent_template : String → String
  webgl_vendors : List String
  webgl_renderers : List String
  device_memories : List Nat
  hardware_concurrencies : List Nat

/-- The `"Win32"` entry of `PLATFORM_PROFILES`. -/
def win32Profile : PlatformProfile where
  platform := "Win32"
  vendor := "Google Inc."
  user_agent_template := fun v =>
    s!"Mozilla/5.0 (Windows NT 10.0; Win64; x64) AppleWebKit/537.36 (KHTML, like Gecko) Chrome/{v} Safari/537.36"
  webgl_vendors :=
    ["Google Inc. (NVIDIA)", "Google Inc. (AMD)", "Google Inc. (Intel)"]
  webgl_renderers :=
    ["ANGLE (NVIDIA GeForce RTX 3080 Direct3D11 vs_5_0 ps_5_0)",
     "ANGLE (NVIDIA GeForce GTX 1660 Super Direct3D11 vs_5_0 ps_5_0)",
     "ANGLE (AMD Radeon RX 6800 XT Direct3D11 vs_5_0 ps_5_0)",
     "ANGLE (Intel(R) UHD Graphics 630 Direct3D11 vs_5_0 ps_5_0)"]
  device_memories := [4, 8, 16, 32]
  hardware_concurrencies := [4, 6, 8, 12, 16]

/-- The `"Linux x86_64"` entry of `PLATFORM_PROFILES`. -/
def linuxProfile : PlatformProfile where
  platform := "Linux x86_64"
  vendor := "Google Inc."
  user_agent_template := fun v =>
    s!"Mozilla/5.0 (X11; Linux x86_64) AppleWebKit/537.36 (KHTML, like Gecko) Chrome/{v} Safari/537.36"
  webgl_vendors :=
    ["Google Inc. (NVIDIA Corporation)", "Google Inc. (AMD)", "Google Inc. (Intel)"]
  webgl_renderers :=
    ["ANGLE (NVIDIA Corporation NVIDIA GeForce RTX 3070/PCIe/SSE2)",
     "ANGLE (AMD Radeon RX 580 Series)",
     "ANGLE (Mesa Intel(R) UHD Graphics 630 (CFL GT2))"]
  device_memories := [4, 8, 16, 32]
  hardware_concurrencies := [4, 6, 8, 12, 16]

/-- The `"MacIntel"` entry of `PLATFORM_PROFILES`. -/
def macProfile : PlatformProfile where
  platform := "MacIntel"
  vendor := "Google Inc."
  user_agent_template := fun v =>
    s!"Mozilla/5.0 (Macintosh; Intel Mac OS X 10_15_7) AppleWebKit/537.36 (KHTML, like Gecko) Chrome/{v} Safari/537.36"
  webgl_vendors :=
    ["Google Inc. (Apple)", "Google Inc. (AMD)", "Google Inc. (Intel Inc.)"]
  webgl_renderers :=
    ["ANGLE (Apple, Apple M1 Pro, OpenGL 4.1)",
     "ANGLE (Apple, Apple M2, OpenGL 4.1)",
     "ANGLE (AMD, AMD Radeon Pro 5500M OpenGL Engine, OpenGL 4.1)",
     "ANGLE (Intel Inc., Intel(R) Iris(TM) Plus Graphics 640, OpenGL 4.1)"]
  device_memories := [8, 16, 32]
  hardware_concurrencies := [8, 10, 12]

/-- `PLATFORM_PROFILES[p]`: dict access over the three fixed keys, `none`
for unknown keys. -/
def platformProfile? (p : String) : Option PlatformProfile :=
  if p = "Win32" then some win32Profile
  else if p = "Linux x86_64" then some linuxProfile
  else if p = "MacIntel" then some macProfile
  else none

/-- `CHROME_VERSIONS` of `infrastructure/fingerprint.py`. -/
def launcherChromeVersions : List String :=
  ["120.0.6099.109", "121.0.6167.85", "122.0.6261.57", "123.0.6312.86",
   "124.0.6367.60"]

/-- `LANGUAGES` of `infrastructure/fingerprint.py`. -/
def launcherLanguages : List (String × List String) :=
  [("en-US", ["en-US", "en"]),
   ("en-GB", ["en-GB", "en"]),
   ("de-DE", ["de-DE", "de", "en"]),
   ("fr-FR", ["fr-FR", "fr", "en"]),
   ("es-ES", ["es-ES", "es", "en"])]

/-- `TIMEZONES` of `infrastructure/fingerprint.py`. -/
def launcherTimezones : List String :=
  ["America/New_York", "America/Los_Angeles", "America/Chicago",
   "Europe/London", "Europe/Berlin", "Europe/Paris", "Asia/Tokyo",
   "Asia/Singapore"]

/-- `FONTS` of `infrastructure/fingerprint.py`. -/
def launcherFonts : List String :=
  ["Arial", "Arial Black", "Comic Sans MS", "Courier New", "Georgia",
   "Impact", "Times New Roman", "Trebuchet MS", "Verdana", "Webdings"]

/-- `PLUGINS` of `infrastructure/fingerprint.py`. -/
def launcherPlugins : List String :=
  ["Chrome PDF Plugin", "Chrome PDF Viewer", "Native Client"]

/-- The state built by `FingerprintGenerator.__init__`: the constructor
filters each configured list against the module tables. -/
structure GenState where
  resolutions : List ScreenResolution
  languages : List (String × List String)
  timezones : List String
  platforms : List String

/-- `FingerprintGenerator.__init__(screen_resolutions, languages, timezones,
platforms)`. -/
def mkGenerator (screen_resolutions : List ScreenResolution)
    (languages : List String) (timezones : List String)
    (platforms : List String) : GenState where
  resolutions := screen_resolutions
  languages := launcherLanguages.filter fun lang => languages.contains lang.1
  timezones := timezones.filter fun tz => launcherTimezones.contains tz
  platforms := platforms.filter fun p => (platformProfile? p).isSome

/-- `FingerprintGenerator.generate_for_platform`: draws every field from the
per-call seeded RNG, modelled by `rs`; `fid` is the fresh `uuid4` id.
Returns `none` when the platform is unknown (Python raises `ValueError`) or
when a configured list is empty (Python raises `IndexError`). -/
def generateForPlatform (g : GenState) (rs : RStream) (fid : String)
    (platform : String) : Option Fingerprint := do
  let profile ← platformProfile? platform
  let screen ← rs.choice 0 g.resolutions
  let lang ← rs.choice 1 g.languages
  let chrome_version ← rs.choice 2 launcherChromeVersions
  let user_agent := profile.user_agent_template chrome_version
  let webgl_vendor ← rs.choice 3 profile.webgl_vendors
  let webgl_renderer ← rs.choice 4 profile.webgl_renderers
  let hardware_concurrency ← rs.choice 5 profile.hardware_concurrencies
  let device_memory ← rs.choice 6 profile.device_memories
  let navigator : NavigatorConfig :=
    { user_agent := user_agent, platform := profile.platform,
      language := lang.1, languages := lang.2,
      hardware_concurrency := hardware_concurrency,
      device_memory := device_memory, max_touch_points := 0,
      vendor := profile.vendor }
  let webgl : WebGLConfig :=
    { vendor := "WebKit", renderer := "WebKit WebGL",
      unmasked_vendor := webgl_vendor, unmasked_renderer := webgl_renderer }
  let canvas : CanvasConfig :=
    { noise_r := rs.uniform 7 (-1/100) (1/100),
      noise_g := rs.uniform 8 (-1/100) (1/100),
      noise_b := rs.uniform 9 (-1/100) (1/100),
      noise_a := rs.uniform 10 (-1/1000) (1/1000) }
  let sample_rate ← rs.choice 11 [44100, 48000]
  let audio : AudioConfig :=
    { sample_rate := sample_rate,
      noise_factor := rs.uniform 12 (1/10000) (5/10000) }
  let num_fonts := rs.randint 13 6 launcherFonts.length
  let fonts := rs.sample 14 launcherFonts num_fonts
  let timezone ← rs.choice (14 + num_fonts) g.timezones
  return { id := fid, screen := screen, navigator := navigator,
           timezone := timezone, webgl := webgl, canvas := canvas,
           audio := audio, fonts := fonts, plugins := launcherPlugins }

/-- `FingerprintGenerator.generate`: picks a platform from the configured
list (by the module-level `random.choice`, modelled as the extra draw `rp`)
and delegates to `generate_for_platform`. -/
def generate (g : GenState) (rs : RStream) (rp : Nat) (fid : String) :
    Option Fingerprint := do
  let platform ← g.platforms.get? (rp % g.platforms.length)
  generateForPlatform g rs fid platform

/-- `FingerprintGenerator.validate`: the §3 invariant checks — known
platform, matching vendor, allowed hardware concurrency and device memory,
timezone in the closed module list. -/
def validate (fp : Fingerprint) : Bool :=
  match platformProfile? fp.navigator.platform with
  | none => false
  | some profile =>
      fp.navigator.vendor == profile.vendor &&
      profile.hardware_concurrencies.contains fp.navigator.hardware_concurrency &&
      profile.device_memories.contains fp.navigator.device_memory &&
      launcherTimezones.contains fp.timezone

/-! ## Session manager
Embeds `SessionManager` from
`src/antidetect_launcher/application/session_manager.py`.

`_hash_fingerprint` computes `sha256(ua|WxH|renderer|noise_r|tz)[:16]`; the
digest function is modelled as an arbitrary function
`hash : Fingerprint → String`, which keeps every theorem below valid for the
actual SHA-256 digest.  The injected `FingerprintGenerator` is modelled by
the sequences of fingerprints its successive invocations return (`SMGen`),
indexed by an invocation counter, so that the `generate_for_platform` and
`generate` call sites stay distinguishable.  Python `set`s of strings are
modelled as duplicate-free lists via `setAdd`. -/

/-- Idempotent insert, modelling `set.add`. -/
def setAdd (s : List String) (x : String) : List String :=
  if s.contains x then s else x :: s

/-- Model of the injected fingerprint generator: `gfp p k` is the result of
the `k`-th generator invocation when it is `generate_for_platform(p)`, and
`g k` the result when it is `generate()`. -/
structure SMGen where
  gfp : String → Nat → Fingerprint
  g : Nat → Fingerprint

/-- One generator invocation of `_generate_unique_fingerprint`'s loop body:
`generate_for_platform(platform)` when a platform hint is given, else
`generate()`. -/
def genFpOnce (G : SMGen) (platform : Option String) (k : Nat) : Fingerprint :=
  match platform with
  | some p => G.gfp p k
  | none => G.g k

/-- The `for _ in range(max_attempts)` loop of
`_generate_unique_fingerprint`: generate, hash, return on the first hash not
in the used set; `none` when every attempt collides. -/
def genLoop (hash : Fingerprint → String) (G : SMGen)
    (platform : Option String) (used : List String) (k : Nat) :
    Nat → Option (Fingerprint × Nat)
  | 0 => none
  | fuel + 1 =>
      let fp := genFpOnce G platform k
      if used.contains (hash fp) then genLoop hash G platform used (k + 1) fuel
      else some (fp, k + 1)

/-- Result of `_generate_unique_fingerprint`: the fingerprint, the advanced
invocation counter, the updated used set, and whether the result came from
inside the loop (`fromLoop = false` marks the post-loop fallback). -/
structure GenFpOut where
  fp : Fingerprint
  k : Nat
  used : List String
  fromLoop : Bool
  deriving Repr

/-- `_generate_unique_fingerprint`: run the 100-attempt loop; on success add
the hash and return; after 100 misses call `generate()` once more — with no
platform hint and no collision check — add its hash and return that. -/
def generateUniqueFingerprint (hash : Fingerprint → String) (G : SMGen)
    (platform : Option String) (used : List String) (k : Nat) : GenFpOut :=
  match genLoop hash G platform used k 100 with
  | some (fp, k') =>
      { fp := fp, k := k', used := setAdd used (hash fp), fromLoop := true }
  | none =>
      let fp := G.g (k + 100)
      { fp := fp, k := k + 101, used := setAdd used (hash fp), fromLoop := false }

/-- Result of `_get_unique_proxy`: the proxy (or `none`), the updated pool,
the advanced pool-randomness counter, the updated used set, and whether the
result came from inside the loop (`fromLoop = false` marks the post-loop
fallback `get_proxy`, which skips the uniqueness registration). -/
structure ProxyOut where
  proxy : Option ProxyConfig
  pool : PoolState
  j : Nat
  used : List String
  fromLoop : Bool
  deriving Repr

/-- `_get_unique_proxy`: up to 100 times lease a proxy; accept it when reuse
is allowed or its URL is unused, else release it and retry; when the pool is
empty return `none`; after 100 rejections lease once more *without* the
used-set check or registration. -/
def getUniqueProxy (pool : PoolState) (rnd : Nat → Nat) (j : Nat)
    (allowReuse : Bool) (used : List String) : Nat → ProxyOut
  | 0 =>
      let (p, pool') := getProxy pool (rnd j)
      { proxy := p, pool := pool', j := j + 1, used := used, fromLoop := false }
  | fuel + 1 =>
      let (p?, pool') := getProxy pool (rnd j)
      match p? with
      | none =>
          { proxy := none, pool := pool', j := j + 1, used := used,
            fromLoop := true }
      | some p =>
          if allowReuse || !used.contains p.url then
            { proxy := some p, pool := pool', j := j + 1,
              used := setAdd used p.url, fromLoop := true }
          else
            getUniqueProxy (releaseProxy pool' p) rnd (j + 1) allowReuse used fuel

/-- The parts of a `UniqueSession` the uniqueness claims speak about: the
minted id, the assembled fingerprint and proxy, and the
`metadata["fingerprint_hash"]` / `metadata["proxy_key"]` entries. -/
structure SessionRec where
  id : String
  fingerprint : Fingerprint
  proxy : Option ProxyConfig
  fpHash : String
  proxyKey : Option String
  deriving Repr

/-- Session-manager state threaded through a batch: the two batch-local used
sets (cleared by `reset_uniqueness_tracking`), the proxy pool, and the
counters indexing the generator-invocation and pool-randomness streams. -/
structure SMState where
  usedFp : List String
  usedProxy : List String
  pool : PoolState
  k : Nat
  j : Nat

/-- Arguments of one `create_unique_session` call. -/
structure BatchCall where
  platform : Option String
  reuseProxy : Bool

/-- `create_unique_session`: generate a batch-unique fingerprint, lease a
batch-unique proxy, and assemble the session; `sid` is the minted uuid4. -/
def createUniqueSession (hash : Fingerprint → String) (G : SMGen)
    (rnd : Nat → Nat) (sid : String) (call : BatchCall) (st : SMState) :
    SessionRec × SMState :=
  let fpOut := generateUniqueFingerprint hash G call.platform st.usedFp st.k
  let pOut := getUniqueProxy st.pool rnd st.j call.reuseProxy st.usedProxy 100
  let session : SessionRec :=
    { id := sid, fingerprint := fpOut.fp, proxy := pOut.proxy,
      fpHash := hash fpOut.fp, proxyKey := pOut.proxy.map (·.url) }
  (session,
   { usedFp := fpOut.used, usedProxy := pOut.used, pool := pOut.pool,
     k := fpOut.k, j := pOut.j })

/-- A batch of `create_unique_session` calls, fed with the stream of minted
session ids. -/
def runBatch (hash : Fingerprint → String) (G : SMGen) (rnd : Nat → Nat)
    (sids : Nat → String) (i : Nat) (st : SMState) :
    List BatchCall → List SessionRec × SMState
  | [] => ([], st)
  | call :: calls =>
      let (s, st') := createUniqueSession hash G rnd (sids i) call st
      let (rest, stFin) := runBatch hash G rnd sids (i + 1) st' calls
      (s :: rest, stFin)

/-- Checker for the amended C1 hypothesis: every call's fingerprint loop and
proxy loop produce their result from inside the loop (no 100-miss
fallback). -/
def runOK (hash : Fingerprint → String) (G : SMGen) (rnd : Nat → Nat)
    (st : SMState) : List BatchCall → Bool
  | [] => true
  | call :: calls =>
      let fpOut := generateUniqueFingerprint hash G call.platform st.usedFp st.k
      let pOut := getUniqueProxy st.pool rnd st.j call.reuseProxy st.usedProxy 100
      let st' : SMState :=
        { usedFp := fpOut.used, usedProxy := pOut.used, pool := pOut.pool,
          k := fpOut.k, j := pOut.j }
      fpOut.fromLoop && pOut.fromLoop && runOK hash G rnd st' calls

/-- The state at the start of a batch: `reset_uniqueness_tracking` has
cleared both used sets. -/
def freshState (pool : PoolState) : SMState :=
  { usedFp := [], usedProxy := [], pool := pool, k := 0, j := 0 }

/-! ## Batch executor
Embeds `BatchConfig`, `BatchStats`, `_run_with_retry` and
`_execute_in_browser` from
`src/antidetect_launcher/application/batch_executor.py`.

The browser, the page and the user script are external; one task attempt is
modelled by its observable outcome (`AttemptOutcome`): either `acquire_page`
itself raises, or the script call inside the page context finishes the ways
`_execute_in_browser` can observe it.  `asyncio.TimeoutError` (raised by
`asyncio.wait_for` when the script exceeds `task_timeout`) is a subclass of
`Exception`, so inside `_execute_in_browser` it is caught by the
`except Exception` handler; `str()` of that bare exception is `""`. -/

/-- `RegistrationStatus` enum. -/
inductive RegistrationStatus
  | success
  | failed
  | captcha_failed
  | proxy_error
  | timeout
  | banned
  deriving DecidableEq, Repr

/-- The fields of `RegistrationResult` that the batch executor reads or
writes. -/
structure RegResult where
  task_id : String
  session_id : String
  status : RegistrationStatus
  error_message : Option String := none
  screenshots : List String := []
  deriving DecidableEq, Repr

/-- `BatchConfig` dataclass (defaults as in the source). -/
structure ExecBatchConfig where
  max_concurrent : Nat := 100
  task_timeout : Nat := 300
  retry_on_failure : Bool := true
  max_retries : Nat := 2
  delay_between_starts : ℚ := 1 / 2
  screenshot_on_error : Bool := true
  screenshot_on_success : Bool := false
  deriving Repr

/-- What the user-script call inside `_execute_in_browser` does: return a
result, exceed the `asyncio.wait_for` deadline (`asyncio.TimeoutError`), or
raise some other exception. -/
inductive ScriptOutcome
  | returns (r : RegResult)
  | timesOut
  | raises (msg : String)
  deriving Repr

/-- Observable outcome of one whole attempt: `acquire_page` succeeded and
the script ran (with the given outcome), or `acquire_page` itself raised
`asyncio.TimeoutError` or another exception before a page existed. -/
inductive AttemptOutcome
  | browser (o : ScriptOutcome)
  | acquireTimeout
  | acquireRaises (msg : String)
  deriving Repr

/-- `_execute_in_browser` after a successful `acquire_page`: stamp the
session id on a returned result and screenshot on the configured paths; a
raised exception — the script's `asyncio.TimeoutError` included — is caught
by the `except Exception` handler, which screenshots when configured and
returns a `FAILED` result whose message is `str(e)`. -/
def executeInBrowser (cfg : ExecBatchConfig) (sid : String)
    (metaTaskId : String) : ScriptOutcome → RegResult
  | .returns r =>
      let r := { r with session_id := sid }
      if r.status = .success && cfg.screenshot_on_success then
        { r with screenshots := r.screenshots ++ [s!"/data/screenshots/{sid}_success.png"] }
      else r
  | .timesOut =>
      { task_id := metaTaskId, session_id := sid, status := .failed,
        error_message := some "",
        screenshots :=
          if cfg.screenshot_on_error then [s!"/data/screenshots/{sid}_error.png"]
          else [] }
  | .raises msg =>
      { task_id := metaTaskId, session_id := sid, status := .failed,
        error_message := some msg,
        screenshots :=
          if cfg.screenshot_on_error then [s!"/data/screenshots/{sid}_error.png"]
          else [] }

/-- `f"...{last_error}"`: Python string interpolation of an optional. -/
def optStr : Option String → String
  | none => "None"
  | some s => s

/-- The attempt loop of `_run_with_retry`, with `fuel` attempts remaining,
`i` the current attempt index and `sids i` the id of the session created for
attempt `i`.  A `SUCCESS`, `BANNED` or `CAPTCHA_FAILED` result is returned
at once; every other outcome — the dead `except asyncio.TimeoutError`
branch included — only updates `last_error` and falls through to the next
attempt. -/
def retryLoop (cfg : ExecBatchConfig) (taskId : String)
    (attempts : Nat → AttemptOutcome) (sids : Nat → String)
    (maxAttempts : Nat) (lastError : Option String) (i : Nat) :
    Nat → RegResult
  | 0 =>
      { task_id := taskId,
        session_id := if maxAttempts = 0 then "unknown" else sids (maxAttempts - 1),
        status := .failed,
        error_message :=
          some s!"All {maxAttempts} attempts failed. Last error: {optStr lastError}" }
  | fuel + 1 =>
      match attempts i with
      | .browser o =>
          let r := executeInBrowser cfg (sids i) taskId o
          if r.status = .success then r
          else if r.status = .banned || r.status = .captcha_failed then r
          else retryLoop cfg taskId attempts sids maxAttempts r.error_message (i + 1) fuel
      | .acquireTimeout =>
          retryLoop cfg taskId attempts sids maxAttempts
            (some s!"Timeout after {cfg.task_timeout}s") (i + 1) fuel
      | .acquireRaises msg =>
          retryLoop cfg taskId attempts sids maxAttempts (some msg) (i + 1) fuel

/-- `_run_with_retry`: `1 + max_retries` attempts when `retry_on_failure`,
otherwise a single attempt; after the last attempt a synthesized `FAILED`
result carries the last-seen error. -/
def runWithRetry (cfg : ExecBatchConfig) (taskId : String)
    (attempts : Nat → AttemptOutcome) (sids : Nat → String) : RegResult :=
  let maxAttempts := 1 + (if cfg.retry_on_failure then cfg.max_retries else 0)
  retryLoop cfg taskId attempts sids maxAttempts none 0 maxAttempts

/-- The result `_run_with_retry` records for attempt `i` (the value bound to
`result` during that iteration): what `_execute_in_browser` returned, or
what the two `except` branches construct when the exception escaped
`_execute_in_browser`. -/
def attemptRecorded (cfg : ExecBatchConfig) (taskId : String)
    (sids : Nat → String) (i : Nat) : AttemptOutcome → RegResult
  | .browser o => executeInBrowser cfg (sids i) taskId o
  | .acquireTimeout =>
      { task_id := taskId, session_id := sids i, status := .timeout,
        error_message := some s!"Timeout after {cfg.task_timeout}s" }
  | .acquireRaises msg =>
      { task_id := taskId, session_id := sids i, status := .failed,
        error_message := some msg }

/-- Python float division, partial at zero (`ZeroDivisionError`). -/
def pyDiv (a b : ℚ) : Option ℚ :=
  if b = 0 then none else some (a / b)

/-- `BatchStats` dataclass (the fields `success_rate` reads). -/
structure BatchStats where
  total_tasks : Nat := 0
  completed : Nat := 0
  successful : Nat := 0
  failed : Nat := 0
  in_progress : Nat := 0
  deriving Repr

/-- `BatchStats.success_rate`: `0.0` when `completed == 0`, else
`(successful / completed) * 100`; `none` would mark a raised
`ZeroDivisionError`. -/
def successRate (s : BatchStats) : Option ℚ :=
  if s.completed = 0 then some 0
  else (pyDiv (s.successful : ℚ) (s.completed : ℚ)).map (· * 100)

/-! ## Profile storage
Embeds `FileProfileStorage` from
`src/antidetect_launcher/infrastructure/profile_storage.py`.

The file content is modelled at the JSON-value level: `json.dumps` followed
by `json.loads` is the identity on the values the serializer emits (string
keys, finite numbers — floats round-trip exactly through `repr`), so the
filesystem maps paths to `Json` values.  A `datetime` is modelled by its
`isoformat()` string (`Dt`), on which `datetime.fromisoformat` is the exact
inverse; `fromisoformat` of a malformed (here: empty) string raises, which
the model returns as `none`. -/

/-- JSON values (numbers split into ints and floats, as `json.loads`
does). -/
inductive Json
  | null
  | bool (b : Bool)
  | int (n : ℤ)
  | num (q : ℚ)
  | str (s : String)
  | arr (items : List Json)
  | obj (fields : List (String × Json))
  deriving BEq, Repr

/-- A `datetime` value, represented by its `isoformat()` string. -/
structure Dt where
  iso : String
  deriving DecidableEq, Repr

/-- `datetime.fromisoformat`; raises (`none`) on a malformed string — the
empty string is the only malformed input reachable in this development. -/
def fromIso (s : String) : Option Dt :=
  if s = "" then none else some ⟨s⟩

/-- `BrowserProfile` dataclass. -/
structure BrowserProfile where
  id : String
  fingerprint : Fingerprint
  proxy : Option ProxyConfig
  storage_path : String
  created_at : Dt
  last_used_at : Option Dt := none
  cookies : List Json := []
  local_storage : List (String × String) := []
  session_storage : List (String × String) := []
  deriving Repr

/-- Python truthiness of a JSON-decoded value. -/
def jTruthy : Json → Bool
  | .null => false
  | .bool b => b
  | .int n => n ≠ 0
  | .num q => q ≠ 0
  | .str s => s ≠ ""
  | .arr l => !l.isEmpty
  | .obj l => !l.isEmpty

/-- Dict lookup `data[k]` / `data.get(k)` on a JSON object. -/
def jGet : Json → String → Option Json
  | .obj fields, k => (fields.find? fun kv => kv.1 = k).map Prod.snd
  | _, _ => none

/-- Typed extraction of a string. -/
def asStr : Json → Option String
  | .str s => some s
  | _ => none

/-- Typed extraction of a non-negative integer. -/
def asNat : Json → Option Nat
  | .int n => n.toNat'
  | _ => none

/-- Typed extraction of a float (`ℚ`). -/
def asNum : Json → Option ℚ
  | .num q => some q
  | .int n => some (n : ℚ)
  | _ => none

/-- Each-element string extraction. -/
def strList : List Json → Option (List String)
  | [] => some []
  | j :: rest =>
      match asStr j, strList rest with
      | some s, some l => some (s :: l)
      | _, _ => none

/-- Typed extraction of a list of strings. -/
def asStrList : Json → Option (List String)
  | .arr items => strList items
  | _ => none

/-- Each-entry string extraction. -/
def strEntries : List (String × Json) → Option (List (String × String))
  | [] => some []
  | kv :: rest =>
      match asStr kv.2, strEntries rest with
      | some v, some l => some ((kv.1, v) :: l)
      | _, _ => none

/-- Typed extraction of a string-to-string map. -/
def asStrMap : Json → Option (List (String × String))
  | .obj fields => strEntries fields
  | _ => none

/-- Typed extraction of a JSON array. -/
def asArr : Json → Option (List Json)
  | .arr items => some items
  | _ => none

/-- `value if value is not None` for optional strings read with `.get`:
missing key and JSON `null` both give Python `None`. -/
def asOptStr : Option Json → Option (Option String)
  | none => some none
  | some .null => some none
  | some (.str s) => some (some s)
  | some _ => none

/-- The `"last_used_at"` value written by `_serialize_profile`. -/
def dtJsonOpt : Option Dt → Json
  | some d => .str d.iso
  | none => .null

/-- A `dict[str, str]` as written by `_serialize_profile`. -/
def strMapJson (l : List (String × String)) : Json :=
  .obj (l.map fun kv => (kv.1, .str kv.2))

/-- The `"fingerprint"` value written by `_serialize_profile`. -/
def fpJson (fp : Fingerprint) : Json :=
  .obj
    [("id", .str fp.id),
     ("screen", .obj
       [("width", .int fp.screen.width),
        ("height", .int fp.screen.height)]),
     ("navigator", .obj
       [("user_agent", .str fp.navigator.user_agent),
        ("platform", .str fp.navigator.platform),
        ("language", .str fp.navigator.language),
        ("languages", .arr (fp.navigator.languages.map Json.str)),
        ("hardware_concurrency", .int fp.navigator.hardware_concurrency),
        ("device_memory", .int fp.navigator.device_memory),
        ("max_touch_points", .int fp.navigator.max_touch_points),
        ("vendor", .str fp.navigator.vendor)]),
     ("timezone", .str fp.timezone),
     ("webgl", .obj
       [("vendor", .str fp.webgl.vendor),
        ("renderer", .str fp.webgl.renderer),
        ("unmasked_vendor", .str fp.webgl.unmasked_vendor),
        ("unmasked_renderer", .str fp.webgl.unmasked_renderer)]),
     ("canvas", .obj
       [("noise_r", .num fp.canvas.noise_r),
        ("noise_g", .num fp.canvas.noise_g),
        ("noise_b", .num fp.canvas.noise_b),
        ("noise_a", .num fp.canvas.noise_a)]),
     ("audio", .obj
       [("sample_rate", .int fp.audio.sample_rate),
        ("noise_factor", .num fp.audio.noise_factor)]),
     ("fonts", .arr (fp.fonts.map Json.str)),
     ("plugins", .arr (fp.plugins.map Json.str))]

/-- The `"proxy"` value written by `_serialize_profile`. -/
def proxyJson : Option ProxyConfig → Json
  | some proxy => .obj
      [("host", .str proxy.host),
       ("port", .int proxy.port),
       ("protocol", .str proxy.protocol.value),
       ("username", match proxy.username with | some u => .str u | none => .null),
       ("password", match proxy.password with | some w => .str w | none => .null)]
  | none => .null

/-- `FileProfileStorage._serialize_profile`. -/
def serializeProfile (p : BrowserProfile) : Json :=
  .obj
    [("id", .str p.id),
     ("storage_path", .str p.storage_path),
     ("created_at", .str p.created_at.iso),
     ("last_used_at", dtJsonOpt p.last_used_at),
     ("cookies", .arr p.cookies),
     ("local_storage", strMapJson p.local_storage),
     ("session_storage", strMapJson p.session_storage),
     ("fingerprint", fpJson p.fingerprint),
     ("proxy", proxyJson p.proxy)]

/-- The `if data.get("proxy"):` branch of `_deserialize_profile`: rebuild
the optional `ProxyConfig`. -/
def deserializeProxy (data : Json) : Option (Option ProxyConfig) :=
  match jGet data "proxy" with
  | some proxyData =>
      if jTruthy proxyData then
        match (jGet proxyData "host").bind asStr with
        | none => none
        | some host =>
        match (jGet proxyData "port").bind asNat with
        | none => none
        | some port =>
        match ((jGet proxyData "protocol").bind asStr).bind ProxyProtocol.ofValue with
        | none => none
        | some protocol =>
        match asOptStr (jGet proxyData "username") with
        | none => none
        | some username =>
        match asOptStr (jGet proxyData "password") with
        | none => none
        | some password =>
          some (some { host := host, port := port, protocol := protocol,
                       username := username, password := password })
      else some none
  | none => some none

/-- The `last_used_at` branch of `_deserialize_profile`:
`datetime.fromisoformat(...) if data.get("last_used_at") else None`. -/
def deserializeLastUsed (data : Json) : Option (Option Dt) :=
  match jGet data "last_used_at" with
  | some v =>
      if jTruthy v then
        match (asStr v).bind fromIso with
        | none => none
        | some d => some (some d)
      else some none
  | none => some none

/-- The `ScreenResolution(...)` call of `_deserialize_profile`. -/
def deserializeScreen (fpData : Json) : Option ScreenResolution :=
  match jGet fpData "screen" with
  | none => none
  | some screenData =>
  match (jGet screenData "width").bind asNat with
  | none => none
  | some width =>
  match (jGet screenData "height").bind asNat with
  | none => none
  | some height => some { width := width, height := height }

/-- The `NavigatorConfig(...)` call of `_deserialize_profile`. -/
def deserializeNavigator (fpData : Json) : Option NavigatorConfig :=
  match jGet fpData "navigator" with
  | none => none
  | some navData =>
  match (jGet navData "user_agent").bind asStr with
  | none => none
  | some userAgent =>
  match (jGet navData "platform").bind asStr with
  | none => none
  | some navPlatform =>
  match (jGet navData "language").bind asStr with
  | none => none
  | some language =>
  match (jGet navData "languages").bind asStrList with
  | none => none
  | some languages =>
  match (jGet navData "hardware_concurrency").bind asNat with
  | none => none
  | some hc =>
  match (jGet navData "device_memory").bind asNat with
  | none => none
  | some dm =>
  match (jGet navData "max_touch_points").bind asNat with
  | none => none
  | some mtp =>
  match (jGet navData "vendor").bind asStr with
  | none => none
  | some vendor =>
    some { user_agent := userAgent, platform := navPlatform,
           language := language, languages := languages,
           hardware_concurrency := hc, device_memory := dm,
           max_touch_points := mtp, vendor := vendor }

/-- The `WebGLConfig(...)` call of `_deserialize_profile`. -/
def deserializeWebgl (fpData : Json) : Option WebGLConfig :=
  match jGet fpData "webgl" with
  | none => none
  | some webglData =>
  match (jGet webglData "vendor").bind asStr with
  | none => none
  | some wv =>
  match (jGet webglData "renderer").bind asStr with
  | none => none
  | some wr =>
  match (jGet webglData "unmasked_vendor").bind asStr with
  | none => none
  | some wuv =>
  match (jGet webglData "unmasked_renderer").bind asStr with
  | none => none
  | some wur =>
    some { vendor := wv, renderer := wr, unmasked_vendor := wuv,
           unmasked_renderer := wur }

/-- The `CanvasConfig(...)` call of `_deserialize_profile`. -/
def deserializeCanvas (fpData : Json) : Option CanvasConfig :=
  match jGet fpData "canvas" with
  | none => none
  | some canvasData =>
  match (jGet canvasData "noise_r").bind asNum with
  | none => none
  | some nr =>
  match (jGet canvasData "noise_g").bind asNum with
  | none => none
  | some ng =>
  match (jGet canvasData "noise_b").bind asNum with
  | none => none
  | some nb =>
  match (jGet canvasData "noise_a").bind asNum with
  | none => none
  | some na =>
    some { noise_r := nr, noise_g := ng, noise_b := nb, noise_a := na }

/-- The `AudioConfig(...)` call of `_deserialize_profile`. -/
def deserializeAudio (fpData : Json) : Option AudioConfig :=
  match jGet fpData "audio" with
  | none => none
  | some audioData =>
  match (jGet audioData "sample_rate").bind asNat with
  | none => none
  | some sampleRate =>
  match (jGet audioData "noise_factor").bind asNum with
  | none => none
  | some noiseFactor =>
    some { sample_rate := sampleRate, noise_factor := noiseFactor }

/-- The `Fingerprint(...)` call of `_deserialize_profile`. -/
def deserializeFingerprint (fpData : Json) : Option Fingerprint :=
  match (jGet fpData "id").bind asStr with
  | none => none
  | some fpId =>
  match deserializeScreen fpData with
  | none => none
  | some screen =>
  match deserializeNavigator fpData with
  | none => none
  | some navigator =>
  match (jGet fpData "timezone").bind asStr with
  | none => none
  | some tz =>
  match deserializeWebgl fpData with
  | none => none
  | some webgl =>
  match deserializeCanvas fpData with
  | none => none
  | some canvas =>
  match deserializeAudio fpData with
  | none => none
  | some audio =>
  match (jGet fpData "fonts").bind asStrList with
  | none => none
  | some fonts =>
  match (jGet fpData "plugins").bind asStrList with
  | none => none
  | some plugins =>
    some { id := fpId, screen := screen, navigator := navigator,
           timezone := tz, webgl := webgl, canvas := canvas, audio := audio,
           fonts := fonts, plugins := plugins }

/-- `FileProfileStorage._deserialize_profile`; `none` marks a raised
`KeyError`/`ValueError`/`TypeError`. -/
def deserializeProfile (data : Json) : Option BrowserProfile :=
  match jGet data "fingerprint" with
  | none => none
  | some fpData =>
  match deserializeFingerprint fpData with
  | none => none
  | some fingerprint =>
  match deserializeProxy data with
  | none => none
  | some proxy =>
  match (jGet data "id").bind asStr with
  | none => none
  | some pid =>
  match (jGet data "storage_path").bind asStr with
  | none => none
  | some storagePath =>
  match ((jGet data "created_at").bind asStr).bind fromIso with
  | none => none
  | some createdAt =>
  match deserializeLastUsed data with
  | none => none
  | some lastUsedAt =>
    some {
      id := pid,
      fingerprint := fingerprint,
      proxy := proxy,
      storage_path := storagePath,
      created_at := createdAt,
      last_used_at := lastUsedAt,
      cookies := ((jGet data "cookies").elim (some []) asArr).getD [],
      local_storage := ((jGet data "local_storage").elim (some []) asStrMap).getD [],
      session_storage := ((jGet data "session_storage").elim (some []) asStrMap).getD [] }

/-- One filesystem operation performed by the storage layer. -/
inductive FsOp
  | write (path : String) (blob : Json)
  | rename (src : String) (dst : String)
  deriving BEq, Repr

/-- `FileProfileStorage._profile_path`. -/
def profilePath (storagePath : String) (pid : String) : String :=
  storagePath ++ "/" ++ pid ++ ".json"

/-- The filesystem-operation trace of `FileProfileStorage.save`: a single
`write_text` of the serialized blob, directly at the profile's final
path. -/
def saveOps (storagePath : String) (p : BrowserProfile) : List FsOp :=
  [.write (profilePath storagePath p.id) (serializeProfile p)]

/-- A filesystem: paths mapped to the JSON value their content decodes
to. -/
def Fs := List (String × Json)

/-- Apply one operation to a filesystem. -/
def applyOp (fs : Fs) : FsOp → Fs
  | .write path blob => (path, blob) :: List.filter (fun kv => kv.1 ≠ path) fs
  | .rename src dst =>
      match (List.find? (fun kv => kv.1 = src) fs).map Prod.snd with
      | none => fs
      | some blob =>
          (dst, blob) ::
            List.filter (fun kv => kv.1 ≠ src ∧ kv.1 ≠ dst) fs

/-- `FileProfileStorage.save` as a filesystem transformer. -/
def save (storagePath : String) (p : BrowserProfile) (fs : Fs) : Fs :=
  (saveOps storagePath p).foldl applyOp fs

/-- `FileProfileStorage.load`: `none` when the file does not exist (and when
deserialization raises). -/
def load (storagePath : String) (pid : String) (fs : Fs) :
    Option BrowserProfile := do
  let blob ← (List.find? (fun kv => kv.1 = profilePath storagePath pid) fs).map Prod.snd
  deserializeProfile blob

/-- Well-formedness used by the round-trip theorem: the datetime fields
carry genuine `isoformat()` output, which is never the empty string. -/
def profileWF (p : BrowserProfile) : Bool :=
  p.created_at.iso ≠ "" &&
  (match p.last_used_at with
   | some d => d.iso ≠ ""
   | none => true)

/-! ## Fingerprint preset generator (playwright package)
Embeds `FingerprintPresetGenerator` and its module tables from
`src/antidetect_playwright/fingerprint/generator.py` and the preset
dataclasses from `src/antidetect_playwright/fingerprint/presets.py`.

`random.Random(seed)` is a deterministic stream of draws once the seed is
fixed; it is modelled by `rngOfSeed`, a concrete deterministic function from
the optional seed string to a stream of integer draws and unit-interval
draws (the theorems below depend only on this determinism, not on the
stream's values).  The `uuid.uuid4()` call at the top of `generate` is
*not* drawn from that seeded stream; it is fresh external randomness and is
therefore an explicit argument `u`. -/

/-- `NavigatorPreset` dataclass. -/
structure NavigatorPreset where
  user_agent : String
  platform : String
  language : String
  languages : List String
  hardware_concurrency : Nat
  device_memory : Nat
  max_touch_points : Nat
  vendor : String
  app_version : String
  app_name : String := "Netscape"
  app_code_name : String := "Mozilla"
  product : String := "Gecko"
  product_sub : String := "20030107"
  build_id : String := "20100101"
  do_not_track : Option String := none
  webdriver : Bool := false
  deriving DecidableEq, Repr

/-- `ScreenPreset` dataclass (ints as `ℤ`: `outer_height` is computed by
subtraction). -/
structure ScreenPreset where
  width : ℤ
  height : ℤ
  avail_width : ℤ
  avail_height : ℤ
  color_depth : ℤ := 24
  pixel_depth : ℤ := 24
  device_pixel_ratio : ℚ := 1
  inner_width : ℤ := 0
  inner_height : ℤ := 0
  outer_width : ℤ := 0
  outer_height : ℤ := 0
  deriving DecidableEq, Repr

/-- `WebGLPreset` dataclass. -/
structure WebGLPreset where
  vendor : String
  renderer : String
  unmasked_vendor : String
  unmasked_renderer : String
  deriving DecidableEq, Repr

/-- `AudioPreset` dataclass. -/
structure AudioPreset where
  sample_rate : Nat := 44100
  channel_count : Nat := 2
  noise_factor : ℚ := 1 / 10000
  deriving DecidableEq, Repr

/-- `CanvasPreset` dataclass. -/
structure CanvasPreset where
  noise_r : ℚ := 0
  noise_g : ℚ := 0
  noise_b : ℚ := 0
  noise_a : ℚ := 0
  deriving DecidableEq, Repr

/-- `WebRTCPreset` dataclass. -/
structure WebRTCPreset where
  disabled : Bool := true
  public_ip : Option String := none
  local_ip : Option String := none
  deriving DecidableEq, Repr

/-- `TimezonePreset` dataclass. -/
structure TimezonePreset where
  timezone_id : String
  offset : ℤ
  deriving DecidableEq, Repr

/-- `AntidetectPreset` dataclass. -/
structure AntidetectPreset where
  id : String
  name : String
  navigator : NavigatorPreset
  screen : ScreenPreset
  webgl : WebGLPreset
  audio : AudioPreset
  canvas : CanvasPreset
  webrtc : WebRTCPreset
  timezone : TimezonePreset
  fonts : List String := []
  plugins : List String := []
  accept_language : String := "en-US,en;q=0.9"
  accept_encoding : String := "gzip, deflate, br"
  sec_ch_ua : String := ""
  sec_ch_ua_mobile : String := "?0"
  sec_ch_ua_platform : String := ""
  deriving DecidableEq, Repr

/-- `CHROME_VERSIONS` of `fingerprint/generator.py`. -/
def pwChromeVersions : List String :=
  ["120.0.0.0", "121.0.0.0", "122.0.0.0", "123.0.0.0", "124.0.0.0",
   "125.0.0.0", "126.0.0.0", "127.0.0.0", "128.0.0.0", "129.0.0.0",
   "130.0.0.0", "131.0.0.0", "132.0.0.0", "133.0.0.0"]

/-- `FIREFOX_VERSIONS`. -/
def firefoxVersions : List String :=
  ["128.0", "129.0", "130.0", "131.0", "132.0", "133.0", "134.0", "135.0"]

/-- One `PLATFORMS` entry. -/
structure PlatformInfo where
  platform : String
  oscpu : String
  vendor : String
  deriving DecidableEq, Repr

/-- `PLATFORMS[p]`: dict access over the five fixed keys. -/
def platformInfo? (p : String) : Option PlatformInfo :=
  if p = "win32" then
    some ⟨"Win32", "Windows NT 10.0; Win64; x64", "Google Inc."⟩
  else if p = "win11" then
    some ⟨"Win32", "Windows NT 10.0; Win64; x64", "Google Inc."⟩
  else if p = "macos" then
    some ⟨"MacIntel", "Intel Mac OS X 10_15_7", "Google Inc."⟩
  else if p = "macos_arm" then
    some ⟨"MacIntel", "Intel Mac OS X 14_0", "Google Inc."⟩
  else if p = "linux" then
    some ⟨"Linux x86_64", "Linux x86_64", "Google Inc."⟩
  else none

/-- `SCREEN_RESOLUTIONS` (width, height, weight). -/
def screenResolutions : List ((ℤ × ℤ) × Nat) :=
  [((1920, 1080), 50), ((2560, 1440), 15), ((1366, 768), 12),
   ((1536, 864), 8), ((1440, 900), 5), ((1680, 1050), 4),
   ((2560, 1080), 3), ((3840, 2160), 2), ((1280, 720), 1)]

/-- `WEBGL_CONFIGS[gpu_type]` (vendor, renderer pairs). -/
def webglConfigs (gpuType : String) : List (String × String) :=
  if gpuType = "nvidia_windows" then
    [("Google Inc. (NVIDIA)", "ANGLE (NVIDIA, NVIDIA GeForce RTX 3080 Direct3D11 vs_5_0 ps_5_0, D3D11)"),
     ("Google Inc. (NVIDIA)", "ANGLE (NVIDIA, NVIDIA GeForce RTX 4070 Direct3D11 vs_5_0 ps_5_0, D3D11)"),
     ("Google Inc. (NVIDIA)", "ANGLE (NVIDIA, NVIDIA GeForce RTX 3060 Direct3D11 vs_5_0 ps_5_0, D3D11)"),
     ("Google Inc. (NVIDIA)", "ANGLE (NVIDIA, NVIDIA GeForce GTX 1660 SUPER Direct3D11 vs_5_0 ps_5_0, D3D11)"),
     ("Google Inc. (NVIDIA)", "ANGLE (NVIDIA, NVIDIA GeForce RTX 2080 Direct3D11 vs_5_0 ps_5_0, D3D11)"),
     ("Google Inc. (NVIDIA)", "ANGLE (NVIDIA, NVIDIA GeForce GTX 1080 Ti Direct3D11 vs_5_0 ps_5_0, D3D11)"),
     ("Google Inc. (NVIDIA)", "ANGLE (NVIDIA, NVIDIA GeForce RTX 4060 Direct3D11 vs_5_0 ps_5_0, D3D11)"),
     ("Google Inc. (NVIDIA)", "ANGLE (NVIDIA, NVIDIA GeForce RTX 3070 Direct3D11 vs_5_0 ps_5_0, D3D11)")]
  else if gpuType = "amd_windows" then
    [("Google Inc. (AMD)", "ANGLE (AMD, AMD Radeon RX 6800 XT Direct3D11 vs_5_0 ps_5_0, D3D11)"),
     ("Google Inc. (AMD)", "ANGLE (AMD, AMD Radeon RX 7900 XTX Direct3D11 vs_5_0 ps_5_0, D3D11)"),
     ("Google Inc. (AMD)", "ANGLE (AMD, AMD Radeon RX 6700 XT Direct3D11 vs_5_0 ps_5_0, D3D11)"),
     ("Google Inc. (AMD)", "ANGLE (AMD, AMD Radeon RX 580 Direct3D11 vs_5_0 ps_5_0, D3D11)"),
     ("Google Inc. (AMD)", "ANGLE (AMD, AMD Radeon RX 5700 XT Direct3D11 vs_5_0 ps_5_0, D3D11)")]
  else if gpuType = "intel_windows" then
    [("Google Inc. (Intel)", "ANGLE (Intel, Intel(R) UHD Graphics 630 Direct3D11 vs_5_0 ps_5_0, D3D11)"),
     ("Google Inc. (Intel)", "ANGLE (Intel, Intel(R) UHD Graphics 770 Direct3D11 vs_5_0 ps_5_0, D3D11)"),
     ("Google Inc. (Intel)", "ANGLE (Intel, Intel(R) Iris Xe Graphics Direct3D11 vs_5_0 ps_5_0, D3D11)"),
     ("Google Inc. (Intel)", "ANGLE (Intel, Intel(R) UHD Graphics 620 Direct3D11 vs_5_0 ps_5_0, D3D11)")]
  else if gpuType = "macos_apple" then
    [("Apple Inc.", "Apple M1"),
     ("Apple Inc.", "Apple M1 Pro"),
     ("Apple Inc.", "Apple M1 Max"),
     ("Apple Inc.", "Apple M2"),
     ("Apple Inc.", "Apple M2 Pro"),
     ("Apple Inc.", "Apple M3"),
     ("Apple Inc.", "Apple M3 Pro"),
     ("Google Inc. (Apple)", "ANGLE (Apple, ANGLE Metal Renderer: Apple M1, Unspecified Version)"),
     ("Google Inc. (Apple)", "ANGLE (Apple, ANGLE Metal Renderer: Apple M2 Pro, Unspecified Version)")]
  else if gpuType = "macos_intel" then
    [("Intel Inc.", "Intel Iris Pro OpenGL Engine"),
     ("Intel Inc.", "Intel(R) UHD Graphics 630"),
     ("AMD Inc.", "AMD Radeon Pro 5500M OpenGL Engine")]
  else if gpuType = "linux_nvidia" then
    [("NVIDIA Corporation", "NVIDIA GeForce RTX 3080/PCIe/SSE2"),
     ("NVIDIA Corporation", "NVIDIA GeForce RTX 3070/PCIe/SSE2"),
     ("NVIDIA Corporation", "NVIDIA GeForce GTX 1660 SUPER/PCIe/SSE2")]
  else if gpuType = "linux_amd" then
    [("X.Org", "AMD Radeon RX 6800 XT (navi21, LLVM 15.0.7, DRM 3.49, 6.1.0)"),
     ("X.Org", "AMD Radeon RX 580 Series (polaris10, LLVM 15.0.7, DRM 3.49, 6.1.0)")]
  else if gpuType = "linux_intel" then
    [("Intel", "Mesa Intel(R) UHD Graphics 630 (CFL GT2)"),
     ("Intel", "Mesa Intel(R) Xe Graphics (TGL GT2)")]
  else []

/-- `TIMEZONES` (zone id, UTC offset in minutes). -/
def pwTimezones : List (String × ℤ) :=
  [("America/New_York", -300), ("America/Chicago", -360),
   ("America/Denver", -420), ("America/Los_Angeles", -480),
   ("America/Sao_Paulo", -180), ("Europe/London", 0), ("Europe/Paris", 60),
   ("Europe/Berlin", 60), ("Europe/Moscow", 180), ("Europe/Istanbul", 180),
   ("Asia/Dubai", 240), ("Asia/Kolkata", 330), ("Asia/Singapore", 480),
   ("Asia/Tokyo", 540), ("Asia/Shanghai", 480), ("Asia/Seoul", 540),
   ("Australia/Sydney", 600), ("Pacific/Auckland", 720)]

/-- `LANGUAGES` of `fingerprint/generator.py`. -/
def pwLanguages : List (String × List String) :=
  [("en-US", ["en-US", "en"]), ("en-GB", ["en-GB", "en"]),
   ("de-DE", ["de-DE", "de", "en"]), ("fr-FR", ["fr-FR", "fr", "en"]),
   ("es-ES", ["es-ES", "es", "en"]), ("it-IT", ["it-IT", "it", "en"]),
   ("pt-BR", ["pt-BR", "pt", "en"]), ("ru-RU", ["ru-RU", "ru", "en"]),
   ("ja-JP", ["ja-JP", "ja", "en"]), ("ko-KR", ["ko-KR", "ko", "en"]),
   ("zh-CN", ["zh-CN", "zh", "en"]), ("zh-TW", ["zh-TW", "zh", "en"]),
   ("nl-NL", ["nl-NL", "nl", "en"]), ("pl-PL", ["pl-PL", "pl", "en"]),
   ("tr-TR", ["tr-TR", "tr", "en"])]

/-- `FONTS_WINDOWS`. -/
def fontsWindows : List String :=
  ["Arial", "Arial Black", "Calibri", "Cambria", "Cambria Math",
   "Comic Sans MS", "Consolas", "Courier New", "Georgia", "Impact",
   "Lucida Console", "Microsoft Sans Serif", "Palatino Linotype",
   "Segoe UI", "Segoe UI Symbol", "Tahoma", "Times New Roman",
   "Trebuchet MS", "Verdana", "Webdings", "Wingdings"]

/-- `FONTS_MACOS`. -/
def fontsMacos : List String :=
  ["American Typewriter", "Andale Mono", "Arial", "Arial Black",
   "Arial Narrow", "Avenir", "Avenir Next", "Baskerville", "Big Caslon",
   "Brush Script MT", "Chalkboard", "Cochin", "Comic Sans MS",
   "Copperplate", "Courier New", "Georgia", "Gill Sans", "Helvetica",
   "Helvetica Neue", "Hoefler Text", "Impact", "Lucida Grande", "Menlo",
   "Monaco", "Optima", "Palatino", "Papyrus", "SF Pro Display",
   "SF Pro Text", "Times New Roman", "Trebuchet MS", "Verdana"]

/-- `FONTS_LINUX`. -/
def fontsLinux : List String :=
  ["DejaVu Sans", "DejaVu Sans Mono", "DejaVu Serif", "Droid Sans",
   "Droid Sans Mono", "FreeMono", "FreeSans", "FreeSerif",
   "Liberation Mono", "Liberation Sans", "Liberation Serif", "Noto Sans",
   "Noto Serif", "Ubuntu", "Ubuntu Mono"]

/-- `HARDWARE_CONCURRENCY`. -/
def hardwareConcurrencyTable : List Nat := [2, 4, 6, 8, 10, 12, 16, 20, 24, 32]

/-- `DEVICE_MEMORY`. -/
def deviceMemoryTable : List Nat := [2, 4, 8, 16, 32]

/-- `DEVICE_PIXEL_RATIOS`. -/
def devicePixelRatios : List ℚ := [1, 5/4, 3/2, 2, 5/2, 3]

/-- `COLOR_DEPTHS`. -/
def colorDepths : List ℤ := [24, 30, 32]

/-- A 64-bit mixing step; stands in for Mersenne-Twister state evolution. -/
def mix64 (n : Nat) : Nat :=
  (n * 6364136223846793005 + 1442695040888963407) % 18446744073709551616

/-- Numeric value of the optional seed string. -/
def strSeed : Option String → Nat
  | none => 0
  | some s =>
      s.data.foldl (fun a c => (a * 31 + c.toNat + 1) % 2305843009213693951) 7

/-- `random.Random(seed)`: the deterministic draw stream of the seeded
Mersenne Twister, modelled by a concrete hash-derived stream — the
development only relies on its determinism in the seed. -/
def rngOfSeed (seed : Option String) : RStream where
  nats := fun k => mix64 (strSeed seed + k * 2654435761 + 17)
  rats := fun k => ((mix64 (strSeed seed + k * 2654435761 + 99) % 1024 : ℚ) / 1024)

/-- Python `int()` on a rational: truncation toward zero. -/
def ratTrunc (q : ℚ) : ℤ := q.num / (q.den : ℤ)

/-- Cumulative-weight scan of `_weighted_choice`. -/
def cumFind (r : ℚ) : ℚ → List (α × Nat) → Option α
  | _, [] => none
  | cum, (x, w) :: rest =>
      if r ≤ cum + w then some x else cumFind r (cum + w) rest

/-- `FingerprintPresetGenerator._weighted_choice`: draw
`r = uniform(0, total)`, return the first item whose cumulative weight
reaches `r`, falling back to the last item. -/
def weightedChoice (g : RStream) (k : Nat) (l : List (α × Nat)) : Option α :=
  let total : ℚ := (l.map fun xw => (xw.2 : ℚ)).sum
  match cumFind (g.uniform k 0 total) 0 l with
  | some x => some x
  | none => (l.map Prod.fst).getLast?

/-- `FingerprintPresetGenerator.__init__` arguments. -/
structure PresetGenCfg where
  seed : Option String := none
  platform : Option String := none
  browser : String := "chrome"

/-- `_select_platform`: the constructor-fixed platform when given, else a
weighted draw (return value paired with the advanced draw index). -/
def selectPlatform (cfg : PresetGenCfg) (g : RStream) (k : Nat) :
    Option String × Nat :=
  match cfg.platform with
  | some p => (some p, k)
  | none =>
      (weightedChoice g k
        [("win32", 65), ("win11", 10), ("macos", 12), ("macos_arm", 8),
         ("linux", 5)], k + 1)

/-- `_generate_user_agent`. -/
def generateUserAgent (cfg : PresetGenCfg) (g : RStream) (k : Nat)
    (platformId chromeVersion : String) : Option (String × Nat) :=
  if cfg.browser = "firefox" then
    match g.choice k firefoxVersions with
    | none => none
    | some fv =>
        let ua :=
          if platformId = "win32" || platformId = "win11" then
            s!"Mozilla/5.0 (Windows NT 10.0; Win64; x64; rv:{fv}) Gecko/20100101 Firefox/{fv}"
          else if platformId = "macos" || platformId = "macos_arm" then
            s!"Mozilla/5.0 (Macintosh; Intel Mac OS X 10.15; rv:{fv}) Gecko/20100101 Firefox/{fv}"
          else
            s!"Mozilla/5.0 (X11; Linux x86_64; rv:{fv}) Gecko/20100101 Firefox/{fv}"
        some (ua, k + 1)
  else
    let ua :=
      if platformId = "win32" || platformId = "win11" then
        s!"Mozilla/5.0 (Windows NT 10.0; Win64; x64) AppleWebKit/537.36 (KHTML, like Gecko) Chrome/{chromeVersion} Safari/537.36"
      else if platformId = "macos" || platformId = "macos_arm" then
        s!"Mozilla/5.0 (Macintosh; Intel Mac OS X 10_15_7) AppleWebKit/537.36 (KHTML, like Gecko) Chrome/{chromeVersion} Safari/537.36"
      else
        s!"Mozilla/5.0 (X11; Linux x86_64) AppleWebKit/537.36 (KHTML, like Gecko) Chrome/{chromeVersion} Safari/537.36"
    some (ua, k)

/-- `_generate_app_version`. -/
def generateAppVersion (platformId chromeVersion : String) : String :=
  if platformId = "win32" || platformId = "win11" then
    s!"5.0 (Windows NT 10.0; Win64; x64) AppleWebKit/537.36 (KHTML, like Gecko) Chrome/{chromeVersion} Safari/537.36"
  else if platformId = "macos" || platformId = "macos_arm" then
    s!"5.0 (Macintosh; Intel Mac OS X 10_15_7) AppleWebKit/537.36 (KHTML, like Gecko) Chrome/{chromeVersion} Safari/537.36"
  else
    s!"5.0 (X11; Linux x86_64) AppleWebKit/537.36 (KHTML, like Gecko) Chrome/{chromeVersion} Safari/537.36"

/-- `_select_webgl`: a weighted GPU family by platform, then a uniform pick
inside the family's config list. -/
def selectWebgl (g : RStream) (k : Nat) (platformId : String) :
    Option ((String × String) × Nat) :=
  if platformId = "win32" || platformId = "win11" then
    match weightedChoice g k
        [("nvidia_windows", 50), ("amd_windows", 25), ("intel_windows", 25)] with
    | none => none
    | some gpu =>
        match g.choice (k + 1) (webglConfigs gpu) with
        | none => none
        | some vr => some (vr, k + 2)
  else if platformId = "macos_arm" then
    match g.choice k (webglConfigs "macos_apple") with
    | none => none
    | some vr => some (vr, k + 1)
  else if platformId = "macos" then
    match weightedChoice g k [("macos_apple", 60), ("macos_intel", 40)] with
    | none => none
    | some gpu =>
        match g.choice (k + 1) (webglConfigs gpu) with
        | none => none
        | some vr => some (vr, k + 2)
  else
    match weightedChoice g k
        [("linux_nvidia", 50), ("linux_amd", 30), ("linux_intel", 20)] with
    | none => none
    | some gpu =>
        match g.choice (k + 1) (webglConfigs gpu) with
        | none => none
        | some vr => some (vr, k + 2)

/-- `_select_fonts`: platform table, then a 70–95 % random subset without
replacement (`int(...)` truncates, all values non-negative). -/
def selectFonts (g : RStream) (k : Nat) (platformId : String) :
    List String × Nat :=
  let base :=
    if platformId = "win32" || platformId = "win11" then fontsWindows
    else if platformId = "macos" || platformId = "macos_arm" then fontsMacos
    else fontsLinux
  let numFonts := (ratTrunc ((base.length : ℚ) * g.uniform k (7/10) (19/20))).toNat
  (g.sample (k + 1) base numFonts, k + 1 + numFonts)

/-- `_generate_canvas_noise`: a random scale in `[1e-4, 1e-3]`, then three
channel noises in `[-scale, scale]`; alpha noise fixed to `0`. -/
def generateCanvasNoise (g : RStream) (k : Nat) : CanvasPreset × Nat :=
  let scale := g.uniform k (1/10000) (1/1000)
  ({ noise_r := g.uniform (k + 1) (-scale) scale,
     noise_g := g.uniform (k + 2) (-scale) scale,
     noise_b := g.uniform (k + 3) (-scale) scale,
     noise_a := 0 }, k + 4)

/-- `f"\x7bl\x7d;q=\x7b1 - i*0.1:.1f\x7d"`'s weight text for `i < 3`. -/
def qWeight : Nat → String
  | 0 => "1.0"
  | 1 => "0.9"
  | _ => "0.8"

/-- The `accept_language` join over the first three language tags. -/
def acceptLanguage (languages : List String) : String :=
  String.intercalate ","
    ((languages.take 3).enum.map fun il => s!"{il.2};q={qWeight il.1}")

/-- `_generate_sec_ch_ua`: the brand list from the Chrome major version and
a *fresh* `_select_platform()` draw for the platform token. -/
def generateSecChUa (cfg : PresetGenCfg) (g : RStream) (k : Nat)
    (chromeVersion : String) : Option ((String × String) × Nat) :=
  let major := chromeVersion.takeWhile (fun c => c ≠ '.')
  let secChUa :=
    "\"Chromium\";v=\"" ++ major ++ "\", \"Not_A Brand\";v=\"8\", \"Google Chrome\";v=\"" ++ major ++ "\""
  match selectPlatform cfg g k with
  | (none, _) => none
  | (some p, k') =>
      match platformInfo? p with
      | none => none
      | some info => some ((secChUa, "\"" ++ info.platform ++ "\""), k')

/-- `name or f"Preset-\x7bpreset_id[:8]\x7d"`: Python truthiness of the
optional name. -/
def presetName (name : Option String) (presetId : String) : String :=
  match name with
  | some n => if n = "" then "Preset-" ++ presetId.take 8 else n
  | none => "Preset-" ++ presetId.take 8

/-- The fields of an `AntidetectPreset` other than `id` and `name`. -/
structure PresetBody where
  navigator : NavigatorPreset
  screen : ScreenPreset
  webgl : WebGLPreset
  audio : AudioPreset
  canvas : CanvasPreset
  webrtc : WebRTCPreset
  timezone : TimezonePreset
  fonts : List String
  plugins : List String
  accept_language : String
  sec_ch_ua : String
  sec_ch_ua_platform : String
  deriving DecidableEq, Repr

/-- The seeded part of `FingerprintPresetGenerator.generate`: every
quantity drawn from the constructor's `random.Random(seed)` stream, in
source order (`preset_id` and `preset_name` come from the fresh uuid, which
`generate` computes before any seeded draw — see `generatePreset`).
`none` marks a raised `KeyError`/`IndexError` (unknown constructor
platform). -/
def generateBody (cfg : PresetGenCfg) : Option PresetBody :=
  let g := rngOfSeed cfg.seed
  match selectPlatform cfg g 0 with
  | (none, _) => none
  | (some platformId, k1) =>
  match platformInfo? platformId with
  | none => none
  | some platformConfig =>
  match g.choice k1 pwChromeVersions with
  | none => none
  | some chromeVersion =>
  match generateUserAgent cfg g (k1 + 1) platformId chromeVersion with
  | none => none
  | some (userAgent, k2) =>
  let appVersion := generateAppVersion platformId chromeVersion
  match g.choice k2 pwLanguages with
  | none => none
  | some langPair =>
  match g.choice (k2 + 1) hardwareConcurrencyTable with
  | none => none
  | some hardwareConcurrency =>
  match g.choice (k2 + 2) deviceMemoryTable with
  | none => none
  | some deviceMemory =>
  match weightedChoice g (k2 + 3) screenResolutions with
  | none => none
  | some screenData =>
  match g.choice (k2 + 4) devicePixelRatios with
  | none => none
  | some devicePixelRatio =>
  let touchDrawn := platformId = "win32" || platformId = "win11"
  match
    if touchDrawn then g.choice (k2 + 5) [0, 0, 0, 1, 5, 10]
    else some 0 with
  | none => none
  | some maxTouchPoints =>
  let k3 := if touchDrawn then k2 + 6 else k2 + 5
  match g.choice k3 [none, some "1", none, none] with
  | none => none
  | some doNotTrack =>
  let navigator : NavigatorPreset :=
    { user_agent := userAgent, platform := platformConfig.platform,
      language := langPair.1, languages := langPair.2,
      hardware_concurrency := hardwareConcurrency,
      device_memory := deviceMemory, max_touch_points := maxTouchPoints,
      vendor := platformConfig.vendor, app_version := appVersion,
      build_id := "20100101", do_not_track := doNotTrack,
      webdriver := false }
  match g.choice (k3 + 1) ([40, 48, 60, 72, 80] : List ℤ) with
  | none => none
  | some taskbarHeight =>
  match g.choice (k3 + 2) colorDepths with
  | none => none
  | some colorDepth =>
  let outerGap : ℤ := g.randint (k3 + 3) 50 150
  let screen : ScreenPreset :=
    { width := screenData.1, height := screenData.2,
      avail_width := screenData.1,
      avail_height := screenData.2 - taskbarHeight,
      color_depth := colorDepth, pixel_depth := 24,
      device_pixel_ratio := devicePixelRatio,
      outer_width := screenData.1,
      outer_height := screenData.2 - taskbarHeight - outerGap }
  match selectWebgl g (k3 + 4) platformId with
  | none => none
  | some (webglPair, k4) =>
  let webgl : WebGLPreset :=
    { vendor := "WebKit", renderer := "WebKit WebGL",
      unmasked_vendor := webglPair.1, unmasked_renderer := webglPair.2 }
  match g.choice k4 [44100, 48000] with
  | none => none
  | some sampleRate =>
  let audio : AudioPreset :=
    { sample_rate := sampleRate, channel_count := 2,
      noise_factor := g.uniform (k4 + 1) (1/100000) (1/10000) }
  let canvasOut := generateCanvasNoise g (k4 + 2)
  let webrtc : WebRTCPreset := { disabled := true }
  match g.choice canvasOut.2 pwTimezones with
  | none => none
  | some tzPair =>
  let timezone : TimezonePreset :=
    { timezone_id := tzPair.1, offset := tzPair.2 }
  let fontsOut := selectFonts g (canvasOut.2 + 1) platformId
  let plugins := ["PDF Viewer", "Chrome PDF Viewer", "Chromium PDF Viewer"]
  match generateSecChUa cfg g fontsOut.2 chromeVersion with
  | none => none
  | some (secPair, _) =>
    some
      { navigator := navigator, screen := screen, webgl := webgl,
        audio := audio, canvas := canvasOut.1, webrtc := webrtc,
        timezone := timezone, fonts := fontsOut.1, plugins := plugins,
        accept_language := acceptLanguage langPair.2,
        sec_ch_ua := secPair.1, sec_ch_ua_platform := secPair.2 }

/-- `FingerprintPresetGenerator.generate`: `u` is the fresh `uuid.uuid4()`
string (external randomness — *not* drawn from the seeded stream), which
becomes the preset's `id` and, when no name is passed, its default `name`;
every other field comes from the seeded body. -/
def generatePreset (cfg : PresetGenCfg) (u : String) (name : Option String) :
    Option AntidetectPreset :=
  (generateBody cfg).map fun b =>
    { id := u, name := presetName name u, navigator := b.navigator,
      screen := b.screen, webgl := b.webgl, audio := b.audio,
      canvas := b.canvas, webrtc := b.webrtc, timezone := b.timezone,
      fonts := b.fonts, plugins := b.plugins,
      accept_language := b.accept_language, sec_ch_ua := b.sec_ch_ua,
      sec_ch_ua_platform := b.sec_ch_ua_platform }

/-- A preset with the uuid-derived fields (`id`, and `name`, whose default
embeds the uuid) cleared. -/
def stripIdName (p : AntidetectPreset) : AntidetectPreset :=
  { p with id := "", name := "" }

/-! ## Concrete instances used by witnesses and counterexamples -/

/-- A concrete proxy (`http://1.2.3.4:8080`). -/
def demoProxy1 : ProxyConfig := { host := "1.2.3.4", port := 8080, protocol := .http }

/-- A second concrete proxy (`http://5.6.7.8:3128`). -/
def demoProxy2 : ProxyConfig := { host := "5.6.7.8", port := 3128, protocol := .http }

/-- A concrete fingerprint parameterized by a tag. -/
def mkDemoFp (tag : String) : Fingerprint where
  id := tag
  screen := { width := 1920, height := 1080 }
  navigator :=
    { user_agent := "UA-" ++ tag, platform := "Win32", language := "en-US",
      languages := ["en-US", "en"], hardware_concurrency := 8,
      device_memory := 8, max_touch_points := 0, vendor := "Google Inc." }
  timezone := "Europe/Berlin"
  webgl := { vendor := "WebKit", renderer := "WebKit WebGL",
             unmasked_vendor := "v", unmasked_renderer := "r" }
  canvas := { noise_r := 0, noise_g := 0, noise_b := 0, noise_a := 0 }
  audio := { sample_rate := 44100, noise_factor := 1/10000 }
  fonts := ["Arial"]
  plugins := launcherPlugins

/-- A concrete digest function standing in for the SHA-256 digest when a
theorem quantified over the digest is instantiated. -/
def idHash : Fingerprint → String := fun fp => fp.id

/-- Generator whose platform-hinted draws all repeat one fingerprint while
the unhinted `generate()` yields a different one. -/
def c5G : SMGen where
  gfp := fun _ _ => mkDemoFp "A"
  g := fun _ => mkDemoFp "B"

/-- Generator whose successive invocations all differ. -/
def c1G : SMGen where
  gfp := fun _ k => mkDemoFp ("fp" ++ toString k)
  g := fun k => mkDemoFp ("fp" ++ toString k)

/-- A two-proxy pool under the first-available strategy (any strategy
string other than `"random"`/`"round_robin"` selects that branch). -/
def c1PoolFA : PoolState := loadPool "first_available" [demoProxy1, demoProxy2]

/-- A two-proxy pool under the round-robin strategy. -/
def c1PoolRR : PoolState := loadPool "round_robin" [demoProxy1, demoProxy2]

/-- A `create_unique_session` call with no platform hint and
`reuse_proxy=False` (the default). -/
def c1Call : BatchCall := { platform := none, reuseProxy := false }

/-- Minted session ids. -/
def c1Sids : Nat → String := fun i => "sid" ++ toString i

/-- Pool randomness (unused outside the `"random"` strategy). -/
def c1Rnd : Nat → Nat := fun _ => 0

/-- The two-call batch of the C1 counterexample, run from a fresh batch
state over the first-available pool. -/
def c1Out : List SessionRec × SMState :=
  runBatch idHash c1G c1Rnd c1Sids 0 (freshState c1PoolFA) [c1Call, c1Call]

/-- The two-call batch of the C1 witness, over the round-robin pool. -/
def c1OutRR : List SessionRec × SMState :=
  runBatch idHash c1G c1Rnd c1Sids 0 (freshState c1PoolRR) [c1Call, c1Call]

/-- A generator configured with one resolution, one language, one timezone
and one platform. -/
def c4Gen : GenState :=
  mkGenerator [{ width := 1920, height := 1080 }] ["en-US"] ["Europe/Berlin"]
    ["Win32"]

/-- A concrete draw stream. -/
def c4Rs : RStream where
  nats := fun _ => 0
  rats := fun _ => 0

/-- The fingerprint `generate_for_platform` produces on that input. -/
def c4DemoFp : Fingerprint :=
  (generateForPlatform c4Gen c4Rs "fid-1" "Win32").getD (mkDemoFp "x")

/-- A seeded preset-generator configuration. -/
def c3Cfg : PresetGenCfg := { seed := some "batch-seed" }

/-- First fresh uuid4 value. -/
def c3U1 : String := "11111111-aaaa-4bbb-8ccc-000000000001"

/-- Second fresh uuid4 value. -/
def c3U2 : String := "22222222-aaaa-4bbb-8ccc-000000000002"

/-- A successful user-script result. -/
def c6Success : RegResult := { task_id := "t1", session_id := "", status := .success }

/-- Attempt outcomes: the first attempt's script exceeds the deadline, the
second returns success. -/
def c6Attempts : Nat → AttemptOutcome := fun i =>
  if i = 0 then .browser .timesOut else .browser (.returns c6Success)

/-- Per-attempt session ids. -/
def c6Sids : Nat → String := fun i => "s" ++ toString i

/-- A concrete profile exercising every serialized field. -/
def demoProfile : BrowserProfile where
  id := "p1"
  fingerprint := mkDemoFp "fp-demo"
  proxy := some { host := "9.9.9.9", port := 1080, protocol := .socks5,
                  username := some "u", password := some "w" }
  storage_path := "/data/storage/p1"
  created_at := ⟨"2024-01-01T00:00:00"⟩
  last_used_at := some ⟨"2024-01-02T12:30:00"⟩
  cookies := [Json.obj [("name", .str "sid"), ("value", .str "abc"),
                        ("domain", .str "example.com")]]
  local_storage := [("theme", "dark")]
  session_storage := [("csrf", "tok")]

/-- First `get_proxy` call on a freshly loaded single-proxy pool. -/
def c2Pool0 : PoolState := loadPool "first_available" [demoProxy1]

/-- Result and state of the first lease. -/
def c2Step1 : Option ProxyConfig × PoolState := getProxy c2Pool0 0

/-- Second lease, issued while the first is still outstanding. -/
def c2Step2 : Option ProxyConfig × PoolState := getProxy c2Step1.2 0

end Antidetect

namespace Antidetect

/-! ## Theorems -/

/-- Claim C10 : `BatchStats.success_rate` is total — it returns `0.0` when
`completed == 0` and `(successful / completed) * 100` otherwise; the
division is never evaluated at zero. -/
theorem c10_success_rate_total (s : BatchStats) :
    successRate s =
      some (if s.completed = 0 then 0
            else (s.successful : ℚ) / (s.completed : ℚ) * 100) := by
  by_cases h : s.completed = 0 <;> simp [successRate, pyDiv, h]

/-- Claim C7 counterexample : the claim maps every 2xx probe response to
`valid`, but `validate_proxy` returns `INVALID` for status 201 — only
status 200 yields `VALID`. -/
theorem c7_counterexample :
    validateProxy (.resp 201) = ProxyStatus.invalid ∧
    ¬ (∀ st, 200 ≤ st → st ≤ 299 → validateProxy (.resp st) = ProxyStatus.valid) := by
  refine ⟨rfl, fun h => ?_⟩
  exact absurd (h 201 (by norm_num) (by norm_num)) (by decide)

/-- Claim C7 (amended) : `validate_proxy` returns `valid` exactly on a probe
response with status 200 (any other status → `invalid`), `slow` on a
timeout, and `invalid` on any other failure. -/
theorem c7_validate_outcome_mapping :
    (∀ st : Nat, validateProxy (.resp st) =
        if st = 200 then ProxyStatus.valid else ProxyStatus.invalid) ∧
    validateProxy .timeout = ProxyStatus.slow ∧
    validateProxy .error = ProxyStatus.invalid :=
  ⟨fun _ => rfl, rfl, rfl⟩

/-- Claim C2 : `get_proxy` neither removes the leased key from the available
queue nor consults `in_use`, so a second `get_proxy` call returns the very
proxy that is still leased (first-available strategy, one-proxy pool). -/
theorem c2_leased_proxy_returned_again :
    c2Step1.1 = some demoProxy1 ∧
    (lookupEntry c2Step1.2.proxies demoProxy1.url).map ProxyEntry.in_use =
      some true ∧
    c2Step2.1 = some demoProxy1 :=
  ⟨rfl, rfl, rfl⟩

/-- Claim C9 counterexample : the save trace is not of the write-to-temp-then-
rename shape at the demo profile — `save` performs no rename at all. -/
theorem c9_counterexample :
    ¬ ∃ tmp, saveOps "/data/profiles" demoProfile =
        [FsOp.write tmp (serializeProfile demoProfile),
         FsOp.rename tmp (profilePath "/data/profiles" demoProfile.id)] := by
  rintro ⟨tmp, h⟩
  simp [saveOps] at h

/-- Claim C9 (amended) : `save` performs exactly one filesystem operation — a
direct `write_text` of the serialized blob at the profile's final path;
there is no temporary file and no rename, so an interruption mid-write can
leave a partial file at that path. -/
theorem c9_save_writes_directly (sp : String) (p : BrowserProfile) (fs : Fs) :
    saveOps sp p = [FsOp.write (profilePath sp p.id) (serializeProfile p)] ∧
    save sp p fs = (profilePath sp p.id, serializeProfile p) ::
      List.filter (fun kv => kv.1 ≠ profilePath sp p.id) fs :=
  ⟨rfl, rfl⟩

/-- Claim C6 : an attempt whose user script exceeds `task_timeout` is recorded
with status `FAILED`, not `TIMEOUT` — the `except Exception` inside
`_execute_in_browser` swallows the `asyncio.TimeoutError` first — while the
retry half of the claim holds: the attempt falls through and the next
attempt runs (here succeeding, with the second session's id). -/
theorem c6_timeout_attempt_failed_then_retried :
    (attemptRecorded {} "t1" c6Sids 0 (.browser .timesOut)).status =
      RegistrationStatus.failed ∧
    (attemptRecorded {} "t1" c6Sids 0 (.browser .timesOut)).status ≠
      RegistrationStatus.timeout ∧
    runWithRetry {} "t1" c6Attempts c6Sids =
      { task_id := "t1", session_id := "s1", status := .success } := by
  refine ⟨rfl, by decide, rfl⟩

/-- Claim C5 counterexample : with every platform-hinted candidate colliding
(used set already holds hash `"A"`), the assembled fingerprint is the extra
unhinted `generate()` draw `B`, not the loop's last candidate (`A`, drawn
for the requested platform). -/
theorem c5_counterexample :
    genLoop idHash c5G (some "Win32") ["A"] 0 100 = none ∧
    (generateUniqueFingerprint idHash c5G (some "Win32") ["A"] 0).fp =
      mkDemoFp "B" ∧
    mkDemoFp "B" ≠ genFpOnce c5G (some "Win32") 99 := by
  refine ⟨rfl, rfl, by decide⟩

/-- Claim C5 (amended) : when all 100 loop candidates collide, the session is
assembled with one more fingerprint drawn *outside* the loop by
`generate()` — without the platform hint — whose hash is registered without
any collision check. -/
theorem c5_exhausted_loop_takes_fresh_unhinted_draw
    (hash : Fingerprint → String) (G : SMGen) (platform : Option String)
    (used : List String) (k : Nat)
    (h : genLoop hash G platform used k 100 = none) :
    (generateUniqueFingerprint hash G platform used k).fp = G.g (k + 100) ∧
    (generateUniqueFingerprint hash G platform used k).used =
      setAdd used (hash (G.g (k + 100))) ∧
    (generateUniqueFingerprint hash G platform used k).fromLoop = false := by
  simp [generateUniqueFingerprint, h]

/-- Claim C5 witness : the amended theorem applied at the concrete exhausted
input. -/
theorem c5_witness :
    genLoop idHash c5G (some "Linux x86_64") ["A"] 0 100 = none ∧
    (generateUniqueFingerprint idHash c5G (some "Linux x86_64") ["A"] 0).fp =
      c5G.g 100 := by
  have h : genLoop idHash c5G (some "Linux x86_64") ["A"] 0 100 = none := rfl
  refine ⟨h, ?_⟩
  have := c5_exhausted_loop_takes_fresh_unhinted_draw idHash c5G
    (some "Linux x86_64") ["A"] 0 h
  simpa using this.1

/-- A successful `rng.choice` draws an element of its list. -/
theorem choice_mem {α : Type} {rs : RStream} {k : Nat} {l : List α} {x : α}
    (h : rs.choice k l = some x) : x ∈ l :=
  List.get?_mem h

/-- The key of a `PLATFORM_PROFILES` hit looks itself up to the same
profile, and the three profiles share the vendor string. -/
theorem platformProfile?_self {p : String} {prof : PlatformProfile}
    (h : platformProfile? p = some prof) :
    platformProfile? prof.platform = some prof := by
  unfold platformProfile? at h ⊢
  split_ifs at h with h1 h2 h3 <;>
    (cases h; subst_vars) <;> rfl

/-- The constructor-filtered timezone list only holds module-table
timezones. -/
theorem mkGenerator_timezones (srs : List ScreenResolution)
    (langs tzs plats : List String) {tz : String}
    (h : tz ∈ (mkGenerator srs langs tzs plats).timezones) :
    launcherTimezones.contains tz = true := by
  unfold mkGenerator at h
  exact (List.mem_filter.mp h).2

/-- Every fingerprint produced by `generate_for_platform` on a generator
built by the constructor passes `validate`. -/
theorem generateForPlatform_validate (srs : List ScreenResolution)
    (langs tzs plats : List String) (rs : RStream) (fid p : String)
    {fp : Fingerprint}
    (h : generateForPlatform (mkGenerator srs langs tzs plats) rs fid p =
      some fp) : validate fp = true := by
  unfold generateForPlatform at h
  obtain ⟨prof, hprof, h⟩ := Option.bind_eq_some.mp h
  obtain ⟨screen, _, h⟩ := Option.bind_eq_some.mp h
  obtain ⟨lang, _, h⟩ := Option.bind_eq_some.mp h
  obtain ⟨chrome, _, h⟩ := Option.bind_eq_some.mp h
  obtain ⟨wv, _, h⟩ := Option.bind_eq_some.mp h
  obtain ⟨wr, _, h⟩ := Option.bind_eq_some.mp h
  obtain ⟨hc, hhc, h⟩ := Option.bind_eq_some.mp h
  obtain ⟨dm, hdm, h⟩ := Option.bind_eq_some.mp h
  obtain ⟨sr, _, h⟩ := Option.bind_eq_some.mp h
  obtain ⟨tz, htz, h⟩ := Option.bind_eq_some.mp h
  cases Option.some.inj h
  unfold validate
  rw [platformProfile?_self hprof]
  have h3 : launcherTimezones.contains tz = true :=
    mkGenerator_timezones srs langs tzs plats (choice_mem htz)
  simp
  exact ⟨⟨choice_mem hhc, choice_mem hdm⟩, List.mem_of_elem_eq_true h3⟩

/-- Claim C4 : every fingerprint returned by `generate()` or by
`generate_for_platform(p)` (which fails on platforms outside the closed
set) satisfies `validate`: known platform, matching vendor, allowed
hardware concurrency and device memory, timezone in the closed list. -/
theorem c4_generated_fingerprints_validate (srs : List ScreenResolution)
    (langs tzs plats : List String) (rs : RStream) (fid p : String)
    (rp : Nat) (fp fp' : Fingerprint) :
    (generateForPlatform (mkGenerator srs langs tzs plats) rs fid p =
        some fp → validate fp = true) ∧
    (generate (mkGenerator srs langs tzs plats) rs rp fid = some fp' →
        validate fp' = true) := by
  constructor
  · exact fun h => generateForPlatform_validate srs langs tzs plats rs fid p h
  · intro h
    unfold generate at h
    obtain ⟨q, _, h⟩ := Option.bind_eq_some.mp h
    exact generateForPlatform_validate srs langs tzs plats rs fid q h

/-- Claim C4 witness : the theorem applied at a concrete generator
configuration and draw stream; the produced fingerprint validates. -/
theorem c4_witness :
    generateForPlatform c4Gen c4Rs "fid-1" "Win32" = some c4DemoFp ∧
    validate c4DemoFp = true := by
  have h : generateForPlatform c4Gen c4Rs "fid-1" "Win32" = some c4DemoFp := rfl
  exact ⟨h, (c4_generated_fingerprints_validate
    [{ width := 1920, height := 1080 }] ["en-US"] ["Europe/Berlin"] ["Win32"]
    c4Rs "fid-1" "Win32" 0 c4DemoFp c4DemoFp).1 h⟩

/-- Claim C3 counterexample : two runs of the seeded generator with the same
seed draw two different fresh `uuid4` values, and the outputs differ — the
preset's `id` (and default name) is the raw uuid, not derived from the
seed. -/
theorem c3_counterexample :
    generatePreset c3Cfg c3U1 none ≠ generatePreset c3Cfg c3U2 none ∧
    (generatePreset c3Cfg c3U1 none).map AntidetectPreset.id = some c3U1 ∧
    (generatePreset c3Cfg c3U2 none).map AntidetectPreset.id = some c3U2 := by
  have e1 : (generatePreset c3Cfg c3U1 none).map AntidetectPreset.id =
      some c3U1 := by with_unfolding_all decide
  have e2 : (generatePreset c3Cfg c3U2 none).map AntidetectPreset.id =
      some c3U2 := by with_unfolding_all decide
  refine ⟨?_, e1, e2⟩
  intro h
  have h' := congrArg (Option.map AntidetectPreset.id) h
  rw [e1, e2] at h'
  exact absurd (Option.some.inj h') (by decide)

/-- Claim C3 (amended) : with the seed fixed, every field of the generated
preset other than `id` — and other than the default `name`, which embeds
the fresh uuid — is bit-identical across runs: the output stripped of
`id`/`name` is a function of the constructor arguments alone. -/
theorem c3_seeded_rng_fields_deterministic (cfg : PresetGenCfg)
    (u1 u2 : String) (name : Option String) :
    (generatePreset cfg u1 name).map stripIdName =
      (generatePreset cfg u2 name).map stripIdName := by
  unfold generatePreset
  cases generateBody cfg <;> rfl

/-- Extracting strings back from a string-array round-trips. -/
theorem strList_map_str (l : List String) : strList (l.map Json.str) = some l := by
  induction l with
  | nil => rfl
  | cons a t ih => simp [strList, asStr, ih]

/-- Extracting entries back from a string-map object round-trips. -/
theorem strEntries_map_str (l : List (String × String)) :
    strEntries (l.map fun kv => (kv.1, Json.str kv.2)) = some l := by
  induction l with
  | nil => rfl
  | cons a t ih => simp [strEntries, asStr, ih]

/-- A serialized natural number deserializes to itself. -/
theorem asNat_intCast (n : Nat) : asNat (.int (n : ℤ)) = some n := rfl

/-- A serialized string map deserializes to itself. -/
theorem asStrMap_strMapJson (l : List (String × String)) :
    asStrMap (strMapJson l) = some l := by
  simp [asStrMap, strMapJson, strEntries_map_str]

/-- The serialized fingerprint deserializes to the original. -/
theorem deserializeFingerprint_fpJson (fp : Fingerprint) :
    deserializeFingerprint (fpJson fp) = some fp := by
  simp [deserializeFingerprint, fpJson, deserializeScreen, deserializeNavigator,
    deserializeWebgl, deserializeCanvas, deserializeAudio, jGet, asStr,
    asNat_intCast, asNum, asStrList, strList_map_str]

/-- The serialized optional proxy deserializes to the original. -/
theorem deserializeProxy_proxyJson (data : Json) (pr : Option ProxyConfig)
    (h : jGet data "proxy" = some (proxyJson pr)) :
    deserializeProxy data = some pr := by
  unfold deserializeProxy
  rw [h]
  cases pr with
  | none => rfl
  | some q =>
      obtain ⟨host, port, proto, user, pass⟩ := q
      cases proto <;> cases user <;> cases pass <;> rfl

/-- The serialized optional last-used datetime deserializes to the
original, its `isoformat` string being nonempty. -/
theorem deserializeLastUsed_dtJsonOpt (data : Json) (lu : Option Dt)
    (h : jGet data "last_used_at" = some (dtJsonOpt lu))
    (hwf : ∀ d, lu = some d → d.iso ≠ "") :
    deserializeLastUsed data = some lu := by
  unfold deserializeLastUsed
  rw [h]
  cases lu with
  | none => rfl
  | some d =>
      obtain ⟨iso⟩ := d
      have hne : iso ≠ "" := hwf ⟨iso⟩ rfl
      simp [dtJsonOpt, jTruthy, asStr, fromIso, hne]

/-- `_deserialize_profile` is a left inverse of `_serialize_profile`. -/
theorem deserializeProfile_serializeProfile (p : BrowserProfile)
    (h1 : p.created_at.iso ≠ "")
    (h2 : ∀ d, p.last_used_at = some d → d.iso ≠ "") :
    deserializeProfile (serializeProfile p) = some p := by
  have hca : fromIso p.created_at.iso = some p.created_at := by
    unfold fromIso
    rw [if_neg h1]
  simp only [deserializeProfile,
    show jGet (serializeProfile p) "fingerprint" = some (fpJson p.fingerprint) from rfl,
    deserializeFingerprint_fpJson,
    deserializeProxy_proxyJson (serializeProfile p) p.proxy rfl,
    deserializeLastUsed_dtJsonOpt (serializeProfile p) p.last_used_at rfl h2,
    show (jGet (serializeProfile p) "id").bind asStr = some p.id from rfl,
    show (jGet (serializeProfile p) "storage_path").bind asStr = some p.storage_path from rfl,
    show jGet (serializeProfile p) "cookies" = some (.arr p.cookies) from rfl,
    show jGet (serializeProfile p) "local_storage" = some (strMapJson p.local_storage) from rfl,
    show jGet (serializeProfile p) "session_storage" = some (strMapJson p.session_storage) from rfl,
    show ((jGet (serializeProfile p) "created_at").bind asStr).bind fromIso =
      fromIso p.created_at.iso from rfl,
    hca, Option.elim, asArr, asStrMap_strMapJson, Option.getD]

/-- Claim C8 : profile round-trip — `save(p)` followed by `load(p.id)` returns
a profile equal to `p` in every field, for every profile whose datetime
fields carry genuine (nonempty) `isoformat` strings. -/
theorem c8_profile_round_trip (sp : String) (p : BrowserProfile) (fs : Fs)
    (h : profileWF p = true) :
    load sp p.id (save sp p fs) = some p := by
  have h1 : p.created_at.iso ≠ "" := by
    unfold profileWF at h
    cases hlu : p.last_used_at with
    | none => rw [hlu] at h; simpa using h
    | some d => rw [hlu] at h; simp at h; exact h.1
  have h2 : ∀ d, p.last_used_at = some d → d.iso ≠ "" := by
    intro d hd
    unfold profileWF at h
    rw [hd] at h
    simp at h
    exact h.2
  unfold load save saveOps
  simp only [List.foldl_cons, List.foldl_nil, applyOp]
  rw [List.find?_cons_of_pos _ (by simp)]
  simpa using deserializeProfile_serializeProfile p h1 h2

/-- Claim C8 witness : the round-trip theorem applied to a concrete profile
with a fingerprint, an authenticated SOCKS5 proxy, cookies and both
storage maps. -/
theorem c8_witness :
    profileWF demoProfile = true ∧
    load "/data/profiles" demoProfile.id
      (save "/data/profiles" demoProfile []) = some demoProfile := by
  have hw : profileWF demoProfile = true := by decide
  exact ⟨hw, c8_profile_round_trip "/data/profiles" demoProfile [] hw⟩

/-- Membership in the used-set after a `set.add`. -/
theorem mem_setAdd {s : List String} {x y : String} :
    y ∈ setAdd s x ↔ y = x ∨ y ∈ s := by
  unfold setAdd
  by_cases h : s.contains x = true
  · simp only [h, if_true]
    exact ⟨Or.inr, fun hy => hy.elim
      (fun he => he ▸ List.mem_of_elem_eq_true h) id⟩
  · have h' : x ∉ s := fun hm => h (List.elem_eq_true_of_mem hm)
    simp [h']

/-- A fingerprint returned from inside the collision loop has a hash
outside the used set seen at every attempt. -/
theorem genLoop_not_used {hash : Fingerprint → String} {G : SMGen}
    {pl : Option String} {used : List String} :
    ∀ {fuel k fp kk}, genLoop hash G pl used k fuel = some (fp, kk) →
      hash fp ∉ used := by
  intro fuel
  induction fuel with
  | zero => intro k fp kk h; simp [genLoop] at h
  | succ n ih =>
      intro k fp kk h
      unfold genLoop at h
      by_cases hc : used.contains (hash (genFpOnce G pl k)) = true
      · rw [if_pos hc] at h
        exact ih h
      · rw [if_neg hc] at h
        simp only [Option.some.injEq, Prod.mk.injEq] at h
        obtain ⟨h1, _⟩ := h
        subst h1
        exact fun hm => hc (List.elem_eq_true_of_mem hm)

/-- A `_generate_unique_fingerprint` result flagged as coming from the loop
is fresh for the batch's used set. -/
theorem generateUniqueFingerprint_fresh {hash : Fingerprint → String}
    {G : SMGen} {pl : Option String} {used : List String} {k : Nat}
    (h : (generateUniqueFingerprint hash G pl used k).fromLoop = true) :
    hash (generateUniqueFingerprint hash G pl used k).fp ∉ used := by
  cases hg : genLoop hash G pl used k 100 with
  | none =>
      unfold generateUniqueFingerprint at h
      rw [hg] at h
      simp at h
  | some pr =>
      obtain ⟨fp, kk⟩ := pr
      unfold generateUniqueFingerprint
      rw [hg]
      exact genLoop_not_used hg

/-- `_generate_unique_fingerprint` always registers the returned hash. -/
theorem generateUniqueFingerprint_used (hash : Fingerprint → String)
    (G : SMGen) (pl : Option String) (used : List String) (k : Nat) :
    (generateUniqueFingerprint hash G pl used k).used =
      setAdd used (hash (generateUniqueFingerprint hash G pl used k).fp) := by
  unfold generateUniqueFingerprint
  cases genLoop hash G pl used k 100 with
  | none => rfl
  | some pr => obtain ⟨fp, kk⟩ := pr; rfl

/-- What `_get_unique_proxy` guarantees when the result comes from inside
its loop and reuse is off: no proxy and an unchanged used set, or a proxy
with unused URL, registered. -/
theorem getUniqueProxy_spec (rnd : Nat → Nat) :
    ∀ fuel (pool : PoolState) (j : Nat) (used : List String),
      (getUniqueProxy pool rnd j false used fuel).fromLoop = true →
      ((getUniqueProxy pool rnd j false used fuel).proxy = none ∧
        (getUniqueProxy pool rnd j false used fuel).used = used) ∨
      (∃ p, (getUniqueProxy pool rnd j false used fuel).proxy = some p ∧
        p.url ∉ used ∧
        (getUniqueProxy pool rnd j false used fuel).used = setAdd used p.url) := by
  intro fuel
  induction fuel with
  | zero => intro pool j used h; simp [getUniqueProxy] at h
  | succ n ih =>
      intro pool j used h
      unfold getUniqueProxy at h ⊢
      rcases hgp : getProxy pool (rnd j) with ⟨p?, pool'⟩
      cases p? with
      | none => exact Or.inl ⟨rfl, rfl⟩
      | some p =>
          rw [hgp] at h
          dsimp only [] at h ⊢
          by_cases hq : (false || !used.contains p.url) = true
          · rw [if_pos hq] at h ⊢
            refine Or.inr ⟨p, rfl, fun hm => ?_, rfl⟩
            have hcc : used.contains p.url = true := List.elem_eq_true_of_mem hm
            rw [hcc] at hq
            simp at hq
          · rw [if_neg hq] at h ⊢
            exact ih (releaseProxy pool' p) (j + 1) used h

/-- The batch-uniqueness induction: under a successful run (`runOK`) with
reuse disabled everywhere, the produced sessions carry pairwise-distinct
fingerprint hashes, all fresh for the starting used set, and likewise for
their proxy URL keys. -/
theorem runBatch_unique (hash : Fingerprint → String) (G : SMGen)
    (rnd : Nat → Nat) (sids : Nat → String) :
    ∀ (calls : List BatchCall) (i : Nat) (st : SMState),
      runOK hash G rnd st calls = true →
      (calls.all fun c => !c.reuseProxy) = true →
      ((∀ s ∈ (runBatch hash G rnd sids i st calls).1,
          s.fpHash ∉ st.usedFp) ∧
        ((runBatch hash G rnd sids i st calls).1.map
            SessionRec.fpHash).Pairwise (· ≠ ·)) ∧
      ((∀ s ∈ (runBatch hash G rnd sids i st calls).1,
          ∀ key, s.proxyKey = some key → key ∉ st.usedProxy) ∧
        ((runBatch hash G rnd sids i st calls).1.filterMap
            SessionRec.proxyKey).Pairwise (· ≠ ·)) := by
  intro calls
  induction calls with
  | nil => intro i st _ _; simp [runBatch]
  | cons c cs ih =>
      intro i st hok hall
      obtain ⟨pl, ru⟩ := c
      simp only [List.all_cons, Bool.and_eq_true, Bool.not_eq_true'] at hall
      obtain ⟨hru, hallRest⟩ := hall
      subst hru
      simp only [runOK, Bool.and_eq_true] at hok
      simp only [runBatch, createUniqueSession]
      set fpOut := generateUniqueFingerprint hash G pl st.usedFp st.k
        with hfpOut
      set pOut := getUniqueProxy st.pool rnd st.j false st.usedProxy 100
        with hpOut
      obtain ⟨⟨hfpLoop, hpxLoop⟩, hokRest⟩ := hok
      set st' : SMState :=
        { usedFp := fpOut.used, usedProxy := pOut.used, pool := pOut.pool,
          k := fpOut.k, j := pOut.j } with hst'
      obtain ⟨⟨hF2, hF1⟩, hP2, hP1⟩ := ih (i + 1) st' hokRest hallRest
      have hfpFresh : hash fpOut.fp ∉ st.usedFp :=
        generateUniqueFingerprint_fresh hfpLoop
      have hfpUsed : st'.usedFp = setAdd st.usedFp (hash fpOut.fp) :=
        generateUniqueFingerprint_used hash G pl st.usedFp st.k
      have hpxSpec :
          (pOut.proxy = none ∧ pOut.used = st.usedProxy) ∨
          (∃ p, pOut.proxy = some p ∧ p.url ∉ st.usedProxy ∧
            pOut.used = setAdd st.usedProxy p.url) :=
        getUniqueProxy_spec rnd 100 st.pool st.j st.usedProxy hpxLoop
      refine ⟨⟨?_, ?_⟩, ?_, ?_⟩
      · -- every session hash fresh for st.usedFp
        intro s hs
        rcases List.mem_cons.mp hs with hs | hs
        · exact hs ▸ hfpFresh
        · intro hmem
          exact hF2 s hs (hfpUsed ▸ mem_setAdd.mpr (Or.inr hmem))
      · -- pairwise hashes
        rw [List.map_cons, List.pairwise_cons]
        refine ⟨?_, hF1⟩
        intro b hb
        obtain ⟨s, hsrest, rfl⟩ := List.mem_map.mp hb
        intro he
        exact hF2 s hsrest
          (he ▸ hfpUsed ▸ mem_setAdd.mpr (Or.inl rfl))
      · -- every proxy key fresh for st.usedProxy
        intro s hs key hkey
        rcases List.mem_cons.mp hs with hs | hs
        · subst hs
          simp only [Option.map_eq_some'] at hkey
          obtain ⟨p, hp, rfl⟩ := hkey
          rcases hpxSpec with ⟨hnone, _⟩ | ⟨q, hq, hqfresh, _⟩
          · rw [hnone] at hp; cases hp
          · rw [hq] at hp; cases hp; exact hqfresh
        · intro hmem
          rcases hpxSpec with ⟨_, husd⟩ | ⟨q, _, _, husd⟩
          · refine hP2 s hs key hkey ?_
            show key ∈ st'.usedProxy
            rw [show st'.usedProxy = pOut.used from rfl, husd]
            exact hmem
          · refine hP2 s hs key hkey ?_
            show key ∈ st'.usedProxy
            rw [show st'.usedProxy = pOut.used from rfl, husd]
            exact mem_setAdd.mpr (Or.inr hmem)
      · -- pairwise proxy keys
        rw [List.filterMap_cons]
        rcases hpxSpec with ⟨hnone, _⟩ | ⟨q, hq, _, husd⟩
        · simp only [hnone, Option.map_none']
          exact hP1
        · simp only [hq, Option.map_some']
          rw [List.pairwise_cons]
          refine ⟨?_, hP1⟩
          intro b hb
          obtain ⟨s, hsrest, hskey⟩ := List.mem_filterMap.mp hb
          intro he
          refine hP2 s hsrest b hskey ?_
          show b ∈ st'.usedProxy
          rw [show st'.usedProxy = pOut.used from rfl, husd]
          exact mem_setAdd.mpr (Or.inl he.symm)

/-- Claim C1 counterexample : a two-call batch from a fresh tracking state
over a two-proxy pool (first-available strategy), `reuse_proxy=false`: the
fingerprint hashes are distinct (the batch is well within the distinct
space) yet both sessions carry the *same* proxy URL key — `get_proxy` keeps
leased proxies in the available queue, the second call's loop exhausts its
100 attempts re-drawing the first proxy, and the fallback returns it while
skipping the uniqueness check. -/
theorem c1_counterexample :
    (c1Out.1.map SessionRec.fpHash).Pairwise (· ≠ ·) ∧
    c1Out.1.map SessionRec.proxyKey =
      [some "http://1.2.3.4:8080", some "http://1.2.3.4:8080"] ∧
    ¬ (c1Out.1.filterMap SessionRec.proxyKey).Pairwise (· ≠ ·) := by
  refine ⟨by decide, by decide, ?_⟩
  intro h
  have : c1Out.1.filterMap SessionRec.proxyKey =
      ["http://1.2.3.4:8080", "http://1.2.3.4:8080"] := by decide
  rw [this] at h
  exact absurd (List.pairwise_cons.mp h).1 (by simp)

/-- Claim C1 (amended) : after `reset_uniqueness_tracking`, a batch in which
every call's fingerprint loop and proxy loop succeed within their 100
attempts (no fallback) yields pairwise-distinct fingerprint hashes, and —
with `reuse_proxy=false` throughout — pairwise-distinct proxy URL keys
among the sessions that received a proxy. -/
theorem c1_batch_uniqueness (hash : Fingerprint → String) (G : SMGen)
    (rnd : Nat → Nat) (sids : Nat → String) (calls : List BatchCall)
    (pool : PoolState)
    (hok : runOK hash G rnd (freshState pool) calls = true)
    (hreuse : (calls.all fun c => !c.reuseProxy) = true) :
    ((runBatch hash G rnd sids 0 (freshState pool) calls).1.map
        SessionRec.fpHash).Pairwise (· ≠ ·) ∧
    ((runBatch hash G rnd sids 0 (freshState pool) calls).1.filterMap
        SessionRec.proxyKey).Pairwise (· ≠ ·) := by
  obtain ⟨⟨_, h1⟩, _, h2⟩ :=
    runBatch_unique hash G rnd sids calls 0 (freshState pool) hok hreuse
  exact ⟨h1, h2⟩

/-- Claim C1 witness : the amended theorem applied to a concrete two-call
batch over a round-robin pool, where both loops succeed; the two sessions
get distinct hashes and distinct proxies. -/
theorem c1_witness :
    runOK idHash c1G c1Rnd (freshState c1PoolRR) [c1Call, c1Call] = true ∧
    (c1OutRR.1.map SessionRec.fpHash).Pairwise (· ≠ ·) ∧
    (c1OutRR.1.filterMap SessionRec.proxyKey).Pairwise (· ≠ ·) := by
  have hok : runOK idHash c1G c1Rnd (freshState c1PoolRR) [c1Call, c1Call] =
      true := by decide
  have hre : ([c1Call, c1Call].all fun c => !c.reuseProxy) = true := by decide
  obtain ⟨h1, h2⟩ :=
    c1_batch_uniqueness idHash c1G c1Rnd c1Sids [c1Call, c1Call] c1PoolRR
      hok hre
  exact ⟨hok, h1, h2⟩

end Antidetect
